import Mathlib

/-
Verification development for the stellar-wrap-frontend core:
the typed value converter (src/utils/sorobanConverter.ts), the contract
argument builder (src/utils/contractArgsBuilder.ts), the contract
invocation lifecycle (src/services/contractBridge.ts) and the per-network
contract cache (app/utils/contractBridge.ts).

JavaScript values are shallowly embedded: numbers as an inductive carrying
NaN, the two infinities, or an exact rational; exceptions as the error
side of an Except computation.  A source function wrapped in try/catch is
modelled as a body of type Except String _ plus an explicit catch
combinator, so a result of Except.error denotes an exception escaping to
the caller.  The stellar-sdk StrKey checksum validators are external
collaborators and are abstracted as an oracle of boolean predicates.
-/

namespace StellarWrap

-- ===================================================================
-- JavaScript number model
-- ===================================================================

/-- A JavaScript number: NaN, an infinity, or a finite value (modelled
exactly as a rational; double rounding is irrelevant to the verified
properties, which involve only small literals and range checks). -/
inductive JSNum where
  | nan : JSNum
  | posInf : JSNum
  | negInf : JSNum
  | fin : ℚ → JSNum
deriving DecidableEq

/-- Number.isNaN. -/
def JSNum.isNaNB : JSNum → Bool
  | .nan => true
  | _ => false

/-- Number.isFinite. -/
def JSNum.isFiniteB : JSNum → Bool
  | .fin _ => true
  | _ => false

/-- Number.isInteger. -/
def JSNum.isIntegerB : JSNum → Bool
  | .fin q => q.den = 1
  | _ => false

/-- JS comparison v < c against a rational constant; false on NaN. -/
def JSNum.ltQ : JSNum → ℚ → Bool
  | .nan, _ => false
  | .posInf, _ => false
  | .negInf, _ => true
  | .fin q, c => q < c

/-- JS comparison v > c against a rational constant; false on NaN. -/
def JSNum.gtQ : JSNum → ℚ → Bool
  | .nan, _ => false
  | .posInf, _ => true
  | .negInf, _ => false
  | .fin q, c => c < q

/-- JS comparison v >= c against a rational constant; false on NaN. -/
def JSNum.geQ : JSNum → ℚ → Bool
  | .nan, _ => false
  | .posInf, _ => true
  | .negInf, _ => false
  | .fin q, c => c ≤ q

/-- JS comparison v <= c against a rational constant; false on NaN. -/
def JSNum.leQ : JSNum → ℚ → Bool
  | .nan, _ => false
  | .posInf, _ => false
  | .negInf, _ => true
  | .fin q, c => q ≤ c

/-- Math.floor (rounds toward negative infinity; NaN and infinities pass
through). -/
def JSNum.mathFloor : JSNum → JSNum
  | .nan => .nan
  | .posInf => .posInf
  | .negInf => .negInf
  | .fin q => .fin (Rat.floor q)

/-- Rendering of a number by JS template literals.  Integers render
exactly; the rendering of non-integral rationals is approximate (it is
only ever interpolated into error strings whose checked content does not
involve it). -/
def JSNum.render : JSNum → String
  | .nan => "NaN"
  | .posInf => "Infinity"
  | .negInf => "-Infinity"
  | .fin q => if q.den = 1 then toString q.num else toString q

-- ===================================================================
-- JavaScript value model
-- ===================================================================

/-- The universe of JavaScript values the converter can receive.  A byte
buffer records whether it is a Node Buffer (Buffer.isBuffer true) or a
plain Uint8Array, since toScVal distinguishes the two. -/
inductive JSValue where
  | undef : JSValue
  | null : JSValue
  | bool : Bool → JSValue
  | num : JSNum → JSValue
  | bigint : ℤ → JSValue
  | str : String → JSValue
  | arr : List JSValue → JSValue
  | bytes : Bool → List ℕ → JSValue
  | obj : List (String × JSValue) → JSValue

/-- The JS typeof operator on this universe. -/
def typeofJS : JSValue → String
  | .undef => "undefined"
  | .null => "object"
  | .bool _ => "boolean"
  | .num _ => "number"
  | .bigint _ => "bigint"
  | .str _ => "string"
  | .arr _ => "object"
  | .bytes _ _ => "object"
  | .obj _ => "object"

/-- Array.isArray. -/
def isArrayJS : JSValue → Bool
  | .arr _ => true
  | _ => false

mutual

/-- Template-literal rendering of a value.  Exact for the primitives that
reach checked error messages; approximate for composites. -/
def jsDisplay : JSValue → String
  | .undef => "undefined"
  | .null => "null"
  | .bool b => if b then "true" else "false"
  | .num n => n.render
  | .bigint i => toString i
  | .str s => s
  | .arr xs => jsDisplayList xs
  | .bytes _ bs => String.intercalate "," (bs.map toString)
  | .obj _ => "[object Object]"

/-- Comma-joined rendering of array elements, as JS Array toString. -/
def jsDisplayList : List JSValue → String
  | [] => ""
  | [x] => jsDisplay x
  | x :: rest => jsDisplay x ++ "," ++ jsDisplayList rest

end

/-- Drops leading whitespace characters. -/
def trimLeadChars : List Char → List Char
  | [] => []
  | c :: rest => if c.isWhitespace then trimLeadChars rest else c :: rest

/-- JS String.prototype.trim, modelled structurally over the character
list (strip leading whitespace, then the same on the reversed tail). -/
def jsTrim (s : String) : String :=
  String.mk ((trimLeadChars (trimLeadChars s.data).reverse).reverse)

/-- Decimal digit parser for the string-to-number coercion. -/
def parseDigits : List Char → Option ℕ
  | [] => none
  | cs =>
    if cs.all Char.isDigit then
      some (cs.foldl (fun acc c => 10 * acc + (c.toNat - 48)) 0)
    else none

/-- JS ToNumber on a trimmed nonempty string: optional sign, digits,
optional fractional digits; anything else is NaN.  (A simplification of
the full JS numeric grammar; exponents and hex forms are not modelled.) -/
def parseDecimal (cs : List Char) : JSNum :=
  let core : List Char → JSNum := fun ds =>
    match ds.splitOn '.' with
    | [whole] =>
      match parseDigits whole with
      | some n => .fin n
      | none => .nan
    | [whole, frac] =>
      match parseDigits whole, parseDigits frac with
      | some n, some f => .fin (n + (f : ℚ) / ((10 : ℚ) ^ frac.length))
      | _, _ => .nan
    | _ => .nan
  match cs with
  | '-' :: rest =>
    match core rest with
    | .fin q => .fin (-q)
    | _ => .nan
  | '+' :: rest => core rest
  | _ => core cs

/-- JS ToNumber coercion.  Primitive cases are exact; object-to-primitive
coercion (unreachable from the verified call sites) is approximated as
NaN. -/
def jsToNumber : JSValue → JSNum
  | .undef => .nan
  | .null => .fin 0
  | .bool b => .fin (if b then 1 else 0)
  | .num n => n
  | .bigint _ => .nan
  | .str s =>
    let t := jsTrim s
    if t = "" then .fin 0 else parseDecimal t.data
  | .arr _ => .nan
  | .bytes _ _ => .nan
  | .obj _ => .nan

/-- BigInt(n) on a number: exceptions for NaN, infinities and
non-integral values, as in JS. -/
def jsBigIntOfNumber (n : JSNum) : Except String ℤ :=
  match n with
  | .fin q =>
    if q.den = 1 then Except.ok q.num
    else Except.error ("The number " ++ n.render ++
      " cannot be converted to a BigInt because it is not an integer")
  | _ => Except.error ("The number " ++ n.render ++
      " cannot be converted to a BigInt because it is not an integer")

-- ===================================================================
-- String helpers (the JS String.prototype.includes used by the bridge)
-- ===================================================================

/-- Whether the first list is an initial segment of the second. -/
def charsStartWith : List Char → List Char → Bool
  | [], _ => true
  | _ :: _, [] => false
  | p :: ps, c :: cs => p = c && charsStartWith ps cs

/-- Whether pat occurs contiguously inside the list. -/
def charsInfix (pat : List Char) : List Char → Bool
  | [] => pat.isEmpty
  | c :: cs => charsStartWith pat (c :: cs) || charsInfix pat cs

/-- JS s.includes(pat). -/
def strIncludes (s pat : String) : Bool :=
  charsInfix pat.data s.data

/-- JS s.startsWith(pat), modelled structurally. -/
def jsStartsWith (s pat : String) : Bool :=
  charsStartWith pat.data s.data


-- ===================================================================
-- src/utils/sorobanConverter.ts
-- ===================================================================

namespace sorobanConverter

/-- Maximum value for a 32-bit unsigned integer. -/
def U32_MAX : ℕ := 2 ^ 32 - 1

/-- Maximum value for a 64-bit unsigned integer. -/
def U64_MAX : ℤ := 18446744073709551615

/-- Maximum value for a 32-bit signed integer. -/
def I32_MAX : ℤ := 2 ^ 31 - 1

/-- Minimum value for a 32-bit signed integer. -/
def I32_MIN : ℤ := -(2 ^ 31)

/-- Maximum byte length for ScVal strings. -/
def MAX_STRING_LENGTH : ℕ := 256000

/-- Maximum symbol length. -/
def MAX_SYMBOL_LENGTH : ℕ := 32

/-- The xdr.ScVal tagged union, restricted to the variants this module
constructs. -/
inductive ScVal where
  | scvU32 : ℕ → ScVal
  | scvI32 : ℤ → ScVal
  | scvU64 : ℕ → ScVal
  | scvI64 : ℤ → ScVal
  | scvU128 : ℕ → ScVal
  | scvI128 : ℤ → ScVal
  | scvString : String → ScVal
  | scvSymbol : String → ScVal
  | scvBool : Bool → ScVal
  | scvAddress : String → ScVal
  | scvBytes : List ℕ → ScVal
  | scvVec : List ScVal → ScVal
  | scvMap : List (ScVal × ScVal) → ScVal
  | scvVoid : ScVal

/-- Supported explicit target types for toScVal. -/
inductive ScValTargetType where
  | u32 | i32 | u64 | i64 | u128 | i128
  | string | symbol | bool | address | bytes | vec | map
deriving DecidableEq

/-- The discriminated conversion result (never thrown, always returned). -/
inductive ConversionResult where
  | success : ScVal → ConversionResult
  | failure : String → ConversionResult

/-- Type guard isConversionError. -/
def isConversionError : ConversionResult → Bool
  | .success _ => false
  | .failure _ => true

/-- A try/catch whose handler returns a ConversionResult: the body is an
exception-aware computation, the catch turns any escaped exception into a
returned value, so the wrapped call itself never raises. -/
def jsTry (body : Except String ConversionResult)
    (handler : String → ConversionResult) : Except String ConversionResult :=
  match body with
  | Except.ok r => Except.ok r
  | Except.error m => Except.ok (handler m)

/-- The stellar-sdk StrKey checksum validators, abstracted as an oracle
(external collaborator of the converter). -/
structure StrKeyOracle where
  isValidEd25519PublicKey : String → Bool
  isValidContract : String → Bool

/-- Validates that a number falls within the u32 range. -/
def isValidU32 (value : JSNum) : Bool :=
  value.isIntegerB && value.geQ 0 && value.leQ (U32_MAX : ℚ)

/-- Validates that a number falls within the i32 range. -/
def isValidI32 (value : JSNum) : Bool :=
  value.isIntegerB && value.geQ (I32_MIN : ℚ) && value.leQ (I32_MAX : ℚ)

/-- Validates that a bigint falls within the u64 range. -/
def isValidU64 (value : ℤ) : Bool :=
  0 ≤ value && value ≤ U64_MAX

/-- Validates a Stellar address: 56 characters, G or C prefixed, passing
the StrKey checksum for the respective key type. -/
def isValidStellarAddress (K : StrKeyOracle) (address : String) : Bool :=
  if address = "" then false
  else
    let trimmed := jsTrim address
    if jsStartsWith trimmed "G" && trimmed.length = 56 then
      K.isValidEd25519PublicKey trimmed
    else if jsStartsWith trimmed "C" && trimmed.length = 56 then
      K.isValidContract trimmed
    else false

/-- Validates the Soroban string length limit. -/
def isValidScString (value : String) : Bool :=
  value.utf8ByteSize ≤ MAX_STRING_LENGTH

/-- Symbol character test for the leading character. -/
def isSymbolHead (c : Char) : Bool :=
  c.isAlpha || c = '_'

/-- Symbol character test for the remaining characters. -/
def isSymbolTail (c : Char) : Bool :=
  c.isAlphanum || c = '_'

/-- Validates a Soroban symbol: 1 to 32 chars matching
the anchored pattern letter-or-underscore then alphanumeric-or-underscore. -/
def isValidSymbol (value : String) : Bool :=
  if value.length = 0 || MAX_SYMBOL_LENGTH < value.length then false
  else
    match value.data with
    | [] => false
    | c :: rest => isSymbolHead c && rest.all isSymbolTail

-- ─── Number conversions ─────────────────────────────────────────────

/-- Try-block of numberToScValU32. -/
def numberToScValU32Body (value : JSValue) : Except String ConversionResult :=
  match value with
  | .num n =>
    if n.isNaNB then
      Except.ok (.failure ("Invalid number value: " ++ jsDisplay value))
    else if ¬ isValidU32 n then
      Except.ok (.failure ("Value " ++ jsDisplay value ++
        " is out of u32 range [0, " ++ toString U32_MAX ++ "]"))
    else
      match n with
      | .fin q => Except.ok (.success (.scvU32 q.num.toNat))
      | _ => Except.ok (.failure ("Value " ++ jsDisplay value ++
          " is out of u32 range [0, " ++ toString U32_MAX ++ "]"))
  | w => Except.ok (.failure ("Invalid number value: " ++ jsDisplay w))

/-- Converts a JS number to an ScVal u32. -/
def numberToScValU32 (value : JSValue) : Except String ConversionResult :=
  jsTry (numberToScValU32Body value) (fun m =>
    .failure ("Failed to convert " ++ jsDisplay value ++ " to ScVal u32: " ++ m))

/-- Try-block of numberToScValI32. -/
def numberToScValI32Body (value : JSValue) : Except String ConversionResult :=
  match value with
  | .num n =>
    if n.isNaNB then
      Except.ok (.failure ("Invalid number value: " ++ jsDisplay value))
    else if ¬ isValidI32 n then
      Except.ok (.failure ("Value " ++ jsDisplay value ++
        " is out of i32 range [" ++ toString I32_MIN ++ ", " ++
        toString I32_MAX ++ "]"))
    else
      match n with
      | .fin q => Except.ok (.success (.scvI32 q.num))
      | _ => Except.ok (.failure ("Value " ++ jsDisplay value ++
          " is out of i32 range [" ++ toString I32_MIN ++ ", " ++
          toString I32_MAX ++ "]"))
  | w => Except.ok (.failure ("Invalid number value: " ++ jsDisplay w))

/-- Converts a JS number to an ScVal i32. -/
def numberToScValI32 (value : JSValue) : Except String ConversionResult :=
  jsTry (numberToScValI32Body value) (fun m =>
    .failure ("Failed to convert " ++ jsDisplay value ++ " to ScVal i32: " ++ m))

/-- The large-integer target types handled through the SDK nativeToScVal. -/
inductive LargeIntType where
  | u64 | i64 | u128 | i128

/-- Models the SDK nativeToScVal on a bigint with an explicit large
integer type hint: builds the requested variant, raising when the value
does not fit the type (the XdrLargeInt range check). -/
def nativeToScValInt (i : ℤ) : LargeIntType → Except String ScVal
  | .u64 =>
    if 0 ≤ i ∧ i ≤ U64_MAX then Except.ok (.scvU64 i.toNat)
    else Except.error ("Invalid u64 value: " ++ toString i)
  | .i64 =>
    if -(2 ^ 63) ≤ i ∧ i ≤ 2 ^ 63 - 1 then Except.ok (.scvI64 i)
    else Except.error ("Invalid i64 value: " ++ toString i)
  | .u128 =>
    if 0 ≤ i ∧ i ≤ 2 ^ 128 - 1 then Except.ok (.scvU128 i.toNat)
    else Except.error ("Invalid u128 value: " ++ toString i)
  | .i128 =>
    if -(2 ^ 127) ≤ i ∧ i ≤ 2 ^ 127 - 1 then Except.ok (.scvI128 i)
    else Except.error ("Invalid i128 value: " ++ toString i)

/-- The bigVal computation shared by the 64/128-bit conversions:
a bigint passes through, anything else goes through BigInt(Math.floor _)
with its possible exception. -/
def toBigVal (value : JSValue) : Except String ℤ :=
  match value with
  | .bigint i => Except.ok i
  | w => jsBigIntOfNumber (jsToNumber w).mathFloor

/-- Try-block of numberToScValU64. -/
def numberToScValU64Body (value : JSValue) : Except String ConversionResult := do
  let bigVal ← toBigVal value
  if bigVal < 0 then
    return ConversionResult.failure ("Value " ++ jsDisplay value ++
      " is negative; u64 requires non-negative values")
  if ¬ isValidU64 bigVal then
    return ConversionResult.failure ("Value " ++ jsDisplay value ++
      " exceeds u64 max (" ++ toString U64_MAX ++ ")")
  let scVal ← nativeToScValInt bigVal .u64
  return ConversionResult.success scVal

/-- Converts a JS number or bigint to an ScVal u64. -/
def numberToScValU64 (value : JSValue) : Except String ConversionResult :=
  jsTry (numberToScValU64Body value) (fun m =>
    .failure ("Failed to convert " ++ jsDisplay value ++ " to ScVal u64: " ++ m))

/-- Try-block of numberToScValI64. -/
def numberToScValI64Body (value : JSValue) : Except String ConversionResult := do
  let bigVal ← toBigVal value
  let I64_MIN : ℤ := -9223372036854775808
  let I64_MAX : ℤ := 9223372036854775807
  if bigVal < I64_MIN ∨ I64_MAX < bigVal then
    return ConversionResult.failure ("Value " ++ jsDisplay value ++
      " is out of i64 range [" ++ toString I64_MIN ++ ", " ++
      toString I64_MAX ++ "]")
  let scVal ← nativeToScValInt bigVal .i64
  return ConversionResult.success scVal

/-- Converts a JS number or bigint to an ScVal i64. -/
def numberToScValI64 (value : JSValue) : Except String ConversionResult :=
  jsTry (numberToScValI64Body value) (fun m =>
    .failure ("Failed to convert " ++ jsDisplay value ++ " to ScVal i64: " ++ m))

/-- Try-block of numberToScValU128 (no upper bound check of its own: an
overflow raises inside nativeToScVal and is caught by the wrapper). -/
def numberToScValU128Body (value : JSValue) : Except String ConversionResult := do
  let bigVal ← toBigVal value
  if bigVal < 0 then
    return ConversionResult.failure ("Value " ++ jsDisplay value ++
      " is negative; u128 requires non-negative values")
  let scVal ← nativeToScValInt bigVal .u128
  return ConversionResult.success scVal

/-- Converts a number or bigint to ScVal u128. -/
def numberToScValU128 (value : JSValue) : Except String ConversionResult :=
  jsTry (numberToScValU128Body value) (fun m =>
    .failure ("Failed to convert " ++ jsDisplay value ++ " to ScVal u128: " ++ m))

/-- Try-block of numberToScValI128 (no range check of its own). -/
def numberToScValI128Body (value : JSValue) : Except String ConversionResult := do
  let bigVal ← toBigVal value
  let scVal ← nativeToScValInt bigVal .i128
  return ConversionResult.success scVal

/-- Converts a number or bigint to ScVal i128. -/
def numberToScValI128 (value : JSValue) : Except String ConversionResult :=
  jsTry (numberToScValI128Body value) (fun m =>
    .failure ("Failed to convert " ++ jsDisplay value ++ " to ScVal i128: " ++ m))

-- ─── String / boolean / address / bytes conversions ─────────────────

/-- Try-block of stringToScVal. -/
def stringToScValBody (value : JSValue) : Except String ConversionResult :=
  match value with
  | .str s =>
    if ¬ isValidScString s then
      Except.ok (.failure ("String exceeds maximum length of " ++
        toString MAX_STRING_LENGTH ++ " bytes"))
    else Except.ok (.success (.scvString s))
  | w => Except.ok (.failure ("Expected string but received " ++ typeofJS w))

/-- Converts a JS string to an ScVal string. -/
def stringToScVal (value : JSValue) : Except String ConversionResult :=
  jsTry (stringToScValBody value) (fun m =>
    .failure ("Failed to convert string to ScVal: " ++ m))

/-- Try-block of stringToScValSymbol. -/
def stringToScValSymbolBody (value : JSValue) : Except String ConversionResult :=
  match value with
  | .str s =>
    if ¬ isValidSymbol s then
      Except.ok (.failure ("Invalid symbol \"" ++ s ++ "\": must be 1-" ++
        toString MAX_SYMBOL_LENGTH ++
        " chars, alphanumeric/underscore, starting with letter or underscore"))
    else Except.ok (.success (.scvSymbol s))
  | w => Except.ok (.failure ("Expected string but received " ++ typeofJS w))

/-- Converts a JS string to an ScVal symbol. -/
def stringToScValSymbol (value : JSValue) : Except String ConversionResult :=
  jsTry (stringToScValSymbolBody value) (fun m =>
    .failure ("Failed to convert symbol to ScVal: " ++ m))

/-- Try-block of boolToScVal. -/
def boolToScValBody (value : JSValue) : Except String ConversionResult :=
  match value with
  | .bool b => Except.ok (.success (.scvBool b))
  | w => Except.ok (.failure ("Expected boolean but received " ++ typeofJS w))

/-- Converts a JS boolean to an ScVal bool. -/
def boolToScVal (value : JSValue) : Except String ConversionResult :=
  jsTry (boolToScValBody value) (fun m =>
    .failure ("Failed to convert boolean to ScVal: " ++ m))

/-- Try-block of addressToScVal: trims, validates, then Address.fromString
(modelled as embedding the validated text into the address variant). -/
def addressToScValBody (K : StrKeyOracle) (value : JSValue) :
    Except String ConversionResult :=
  match value with
  | .str address =>
    let trimmed := jsTrim address
    if ¬ isValidStellarAddress K trimmed then
      Except.ok (.failure ("Invalid Stellar address: \"" ++ trimmed ++
        "\". Must be a 56-character G... (account) or C... (contract) address"))
    else Except.ok (.success (.scvAddress trimmed))
  | w => Except.ok (.failure ("Expected string address but received " ++ typeofJS w))

/-- Converts a Stellar address string to an ScVal address. -/
def addressToScVal (K : StrKeyOracle) (value : JSValue) :
    Except String ConversionResult :=
  jsTry (addressToScValBody K value) (fun m =>
    .failure ("Failed to convert address \"" ++ jsDisplay value ++
      "\" to ScVal: " ++ m))

/-- Byte coercion used by Buffer.from on an array element (ToInteger then
low eight bits). -/
def toByte (v : JSValue) : ℕ :=
  match jsToNumber v with
  | .fin q => (Rat.floor q % 256).toNat
  | _ => 0

/-- Models Buffer.isBuffer(value) ? value : Buffer.from(value): a Buffer
passes through, a Uint8Array is copied, a string is UTF-8 encoded, an
array is coerced elementwise; other inputs raise a TypeError. -/
def bufferFrom (value : JSValue) : Except String (List ℕ) :=
  match value with
  | .bytes _ bs => Except.ok bs
  | .str s => Except.ok (s.toUTF8.toList.map UInt8.toNat)
  | .arr xs => Except.ok (xs.map toByte)
  | w => Except.error ("The first argument must be of type string or an " ++
      "instance of Buffer, ArrayBuffer, or Array or an Array-like Object. " ++
      "Received type " ++ typeofJS w)

/-- Try-block of bytesToScVal. -/
def bytesToScValBody (value : JSValue) : Except String ConversionResult := do
  let buf ← bufferFrom value
  return ConversionResult.success (.scvBytes buf)

/-- Converts a Buffer or Uint8Array to an ScVal bytes. -/
def bytesToScVal (value : JSValue) : Except String ConversionResult :=
  jsTry (bytesToScValBody value) (fun m =>
    .failure ("Failed to convert bytes to ScVal: " ++ m))

-- ─── Size measure for the recursive converters ─────────────────────

mutual

/-- Structural size of a value, counting array elements, object fields
and buffer bytes; used as termination measure for toScVal. -/
def jsSize : JSValue → ℕ
  | .arr xs => 1 + jsSizeList xs
  | .obj fs => 1 + jsSizePairs fs
  | .bytes _ bs => 1 + bs.length
  | _ => 0

/-- Size of a list of values. -/
def jsSizeList : List JSValue → ℕ
  | [] => 0
  | x :: rest => jsSize x + 1 + jsSizeList rest

/-- Size of a list of string-keyed fields. -/
def jsSizePairs : List (String × JSValue) → ℕ
  | [] => 0
  | (_, x) :: rest => jsSize x + 1 + jsSizePairs rest

end

/-- Object.entries on a byte buffer: index keys paired with element
numbers. -/
def bytesEntries : List ℕ → ℕ → List (String × JSValue)
  | [], _ => []
  | b :: rest, i => (toString i, JSValue.num (.fin b)) :: bytesEntries rest (i + 1)

theorem jsSizePairs_bytesEntries (bs : List ℕ) (i : ℕ) :
    jsSizePairs (bytesEntries bs i) = bs.length := by
  induction bs generalizing i with
  | nil => simp [bytesEntries, jsSizePairs]
  | cons b rest ih =>
    simp [bytesEntries, jsSizePairs, jsSize, ih]
    omega

-- ─── Unified converter ─────────────────────────────────────────────

mutual

/-- Universal converter from JS values to ScVal, with explicit target type
or inference; the outer try/catch keeps any exception from escaping. -/
def toScVal (K : StrKeyOracle) (value : JSValue) (ty : Option ScValTargetType) :
    Except String ConversionResult :=
  jsTry (toScValBody K value ty) (fun m =>
    .failure ("Unexpected error in toScVal: " ++ m))
termination_by 5 * jsSize value + 4
decreasing_by
  all_goals first
  | omega
  | (simp only [jsSize, jsSizeList, jsSizePairs, jsSizePairs_bytesEntries]
     omega)

/-- Try-block of toScVal: explicit dispatch, then type inference in source
order (null and undefined, boolean, number, bigint, string, array, plain
object excluding Buffer, then byte buffers). -/
def toScValBody (K : StrKeyOracle) (value : JSValue)
    (ty : Option ScValTargetType) : Except String ConversionResult :=
  match ty with
  | some t =>
    match t with
    | .u32 => numberToScValU32 value
    | .i32 => numberToScValI32 value
    | .u64 => numberToScValU64 value
    | .i64 => numberToScValI64 value
    | .u128 => numberToScValU128 value
    | .i128 => numberToScValI128 value
    | .string => stringToScVal value
    | .symbol => stringToScValSymbol value
    | .bool => boolToScVal value
    | .address => addressToScVal K value
    | .bytes => bytesToScVal value
    | .vec => arrayToScValVec K value none
    | .map => objectToScValMap K value none
  | none =>
    match value with
    | .undef => Except.ok (.success .scvVoid)
    | .null => Except.ok (.success .scvVoid)
    | .bool b => boolToScVal (.bool b)
    | .num n =>
      if n.isIntegerB && n.geQ 0 && n.leQ (U32_MAX : ℚ) then
        numberToScValU32 (.num n)
      else numberToScValU64 (.num n)
    | .bigint i => numberToScValU64 (.bigint i)
    | .str s => stringToScVal (.str s)
    | .arr xs => arrayToScValVec K (.arr xs) none
    | .obj fs => objectToScValMap K (.obj fs) none
    | .bytes isBuf bs =>
      if isBuf then bytesToScVal (.bytes isBuf bs)
      else objectToScValMap K (.bytes isBuf bs) none
termination_by 5 * jsSize value + 3
decreasing_by
  all_goals first
  | omega
  | (simp only [jsSize, jsSizeList, jsSizePairs, jsSizePairs_bytesEntries]
     omega)

/-- Converts a JS array to an ScVal vec. -/
def arrayToScValVec (K : StrKeyOracle) (value : JSValue)
    (elementType : Option ScValTargetType) : Except String ConversionResult :=
  jsTry (arrayToScValVecBody K value elementType) (fun m =>
    .failure ("Failed to convert array to ScVal vec: " ++ m))
termination_by 5 * jsSize value + 2
decreasing_by
  all_goals first
  | omega
  | (simp only [jsSize, jsSizeList, jsSizePairs, jsSizePairs_bytesEntries]
     omega)

/-- Try-block of arrayToScValVec. -/
def arrayToScValVecBody (K : StrKeyOracle) (value : JSValue)
    (elementType : Option ScValTargetType) : Except String ConversionResult :=
  match value with
  | .arr xs => do
    let outcome ← convVecElems K xs elementType 0
    match outcome with
    | Except.error m => return ConversionResult.failure m
    | Except.ok elements => return ConversionResult.success (.scvVec elements)
  | w => Except.ok (.failure ("Expected array but received " ++ typeofJS w))
termination_by 5 * jsSize value + 1
decreasing_by
  all_goals first
  | omega
  | (simp only [jsSize, jsSizeList, jsSizePairs, jsSizePairs_bytesEntries]
     omega)

/-- Elementwise conversion loop of arrayToScValVec: the first failing
element ends it with that element error annotated with its index. -/
def convVecElems (K : StrKeyOracle) (xs : List JSValue)
    (elementType : Option ScValTargetType) (i : ℕ) :
    Except String (Except String (List ScVal)) :=
  match xs with
  | [] => Except.ok (Except.ok [])
  | x :: rest => do
    let r ← toScVal K x elementType
    match r with
    | .failure e =>
      return Except.error ("Failed to convert array element at index " ++
        toString i ++ ": " ++ e)
    | .success v => do
      let tail ← convVecElems K rest elementType (i + 1)
      match tail with
      | Except.error m => return Except.error m
      | Except.ok vs => return Except.ok (v :: vs)
termination_by 5 * jsSizeList xs
decreasing_by
  all_goals first
  | omega
  | (simp only [jsSize, jsSizeList, jsSizePairs, jsSizePairs_bytesEntries]
     omega)

/-- Converts a JS object to an ScVal map. -/
def objectToScValMap (K : StrKeyOracle) (value : JSValue)
    (valueTypes : Option (List (String × ScValTargetType))) :
    Except String ConversionResult :=
  jsTry (objectToScValMapBody K value valueTypes) (fun m =>
    .failure ("Failed to convert object to ScVal map: " ++ m))
termination_by 5 * jsSize value + 2
decreasing_by
  all_goals first
  | omega
  | (simp only [jsSize, jsSizeList, jsSizePairs, jsSizePairs_bytesEntries]
     omega)

/-- Try-block of objectToScValMap: rejects non-objects, null and arrays,
then walks Object.entries (fields for a plain object, index/value pairs
for a byte buffer reaching this branch). -/
def objectToScValMapBody (K : StrKeyOracle) (value : JSValue)
    (valueTypes : Option (List (String × ScValTargetType))) :
    Except String ConversionResult :=
  match value with
  | .obj fs => do
    let outcome ← convMapEntries K fs valueTypes
    match outcome with
    | Except.error m => return ConversionResult.failure m
    | Except.ok entries => return ConversionResult.success (.scvMap entries)
  | .bytes isBuf bs => do
    let outcome ← convMapEntries K (bytesEntries bs 0) valueTypes
    match outcome with
    | Except.error m => return ConversionResult.failure m
    | Except.ok entries => return ConversionResult.success (.scvMap entries)
  | w =>
    Except.ok (.failure ("Expected plain object but received " ++
      (if isArrayJS w then "array" else typeofJS w)))
termination_by 5 * jsSize value + 1
decreasing_by
  all_goals first
  | omega
  | (simp only [jsSize, jsSizeList, jsSizePairs, jsSizePairs_bytesEntries]
     omega)

/-- Entrywise conversion loop of objectToScValMap: each key converted as a
symbol, each value converted under the per-key type hint when given; the
first failing key or value ends it with an annotated error. -/
def convMapEntries (K : StrKeyOracle) (fs : List (String × JSValue))
    (valueTypes : Option (List (String × ScValTargetType))) :
    Except String (Except String (List (ScVal × ScVal))) :=
  match fs with
  | [] => Except.ok (Except.ok [])
  | (key, v) :: rest => do
    let keyResult ← stringToScValSymbol (.str key)
    match keyResult with
    | .failure e =>
      return Except.error ("Failed to convert map key \"" ++ key ++ "\": " ++ e)
    | .success kv => do
      let typeHint :=
        match valueTypes with
        | some ts => ts.lookup key
        | none => none
      let valResult ← toScVal K v typeHint
      match valResult with
      | .failure e =>
        return Except.error ("Failed to convert map value for key \"" ++
          key ++ "\": " ++ e)
      | .success vv => do
        let tail ← convMapEntries K rest valueTypes
        match tail with
        | Except.error m => return Except.error m
        | Except.ok entries => return Except.ok ((kv, vv) :: entries)
termination_by 5 * jsSizePairs fs
decreasing_by
  all_goals first
  | omega
  | (simp only [jsSize, jsSizeList, jsSizePairs, jsSizePairs_bytesEntries]
     omega)

end

-- ─── ScVal to native (SDK scValToNative, wrapped by fromScVal) ─────

mutual

/-- Models the SDK scValToNative on the variants this module produces:
numbers for 32-bit values, bigints for 64/128-bit values, text for
strings, symbols and addresses, buffers for bytes, arrays and plain
objects for vec and map. -/
def scValToNative : ScVal → JSValue
  | .scvU32 n => .num (.fin n)
  | .scvI32 i => .num (.fin i)
  | .scvU64 n => .bigint n
  | .scvI64 i => .bigint i
  | .scvU128 n => .bigint n
  | .scvI128 i => .bigint i
  | .scvString s => .str s
  | .scvSymbol s => .str s
  | .scvBool b => .bool b
  | .scvAddress a => .str a
  | .scvBytes bs => .bytes true bs
  | .scvVec xs => .arr (scValListToNative xs)
  | .scvMap entries => .obj (scValMapToNative entries)
  | .scvVoid => .null

/-- Elementwise scValToNative. -/
def scValListToNative : List ScVal → List JSValue
  | [] => []
  | x :: rest => scValToNative x :: scValListToNative rest

/-- Entrywise scValToNative; symbol keys become property names. -/
def scValMapToNative : List (ScVal × ScVal) → List (String × JSValue)
  | [] => []
  | (k, v) :: rest =>
    (match k with
     | .scvSymbol s => s
     | .scvString s => s
     | _ => "",
     scValToNative v) :: scValMapToNative rest

end

/-- Converts an ScVal back to its native representation; the SDK call is
wrapped in a catch returning null, which on the variants modelled here
never fires. -/
def fromScVal (scVal : ScVal) : JSValue :=
  scValToNative scVal

end sorobanConverter

-- ===================================================================
-- src/utils/contractArgsBuilder.ts
-- ===================================================================

namespace contractArgsBuilder

open sorobanConverter

/-- Validated contract arguments ready for invocation. -/
structure ContractArgs where
  args : List ScVal
  argDescriptions : List String

/-- Result of building contract arguments. -/
inductive BuildArgsResult where
  | success : ContractArgs → BuildArgsResult
  | failure : List String → BuildArgsResult

/-- The stats record handed to the builder.  Each field is an untyped JS
value (the validators check the runtime types); an absent timeframe
property reads as undefined. -/
structure ContractStatsInput where
  totalVolume : JSValue
  mostActiveAsset : JSValue
  contractCalls : JSValue
  timeframe : JSValue

/-- The totalVolume checks: a number, non-negative, finite (in source
order, first failing check pushes its message). -/
def validateTotalVolume (v : JSValue) : List String :=
  match v with
  | .num n =>
    if n.ltQ 0 then
      ["totalVolume must be non-negative, got " ++ jsDisplay v]
    else if ¬ n.isFiniteB then
      ["totalVolume must be a finite number"]
    else []
  | w => ["totalVolume must be a number, got " ++ typeofJS w]

/-- The mostActiveAsset checks: a string, non-blank after trimming. -/
def validateMostActiveAsset (v : JSValue) : List String :=
  match v with
  | .str s =>
    if (jsTrim s).length = 0 then ["mostActiveAsset must not be empty"]
    else []
  | w => ["mostActiveAsset must be a string, got " ++ typeofJS w]

/-- The contractCalls checks: a number, an integer, non-negative. -/
def validateContractCalls (v : JSValue) : List String :=
  match v with
  | .num n =>
    if ¬ n.isIntegerB then
      ["contractCalls must be an integer, got " ++ jsDisplay v]
    else if n.ltQ 0 then
      ["contractCalls must be non-negative, got " ++ jsDisplay v]
    else []
  | w => ["contractCalls must be a number, got " ++ typeofJS w]

/-- The optional timeframe check: if present (not undefined) it must be a
string. -/
def validateTimeframe (v : JSValue) : List String :=
  match v with
  | .undef => []
  | .str _ => []
  | w => ["timeframe must be a string if provided, got " ++ typeofJS w]

/-- Validates the indexed stats before attempting conversion, collecting
every violation in field order.  (The guard rejecting a non-object stats
value cannot fire in this embedding, where stats is a record.) -/
def validateIndexedStats (stats : ContractStatsInput) : List String :=
  validateTotalVolume stats.totalVolume ++
  validateMostActiveAsset stats.mostActiveAsset ++
  validateContractCalls stats.contractCalls ++
  validateTimeframe stats.timeframe

/-- One unwrap call plus the guarded pushes at its call site: a failure
appends the labelled error, a success appends the value and its
description. -/
def unwrapStep (result : ConversionResult) (label : String) (desc : String)
    (acc : List String × List ScVal × List String) :
    List String × List ScVal × List String :=
  match result with
  | .failure e => (acc.1 ++ [label ++ ": " ++ e], acc.2.1, acc.2.2)
  | .success v => (acc.1, acc.2.1 ++ [v], acc.2.2 ++ [desc])

/-- The nullish-coalescing default: timeframe ?? "all" substitutes only
for undefined and null. -/
def timeframeOrDefault (tf : JSValue) : JSValue :=
  match tf with
  | .undef => .str "all"
  | .null => .str "all"
  | w => w

/-- The accumulation tail of buildContractArgs over the five conversion
results, in the fixed argument order address, u64 volume, string asset,
u32 calls, string timeframe. -/
def buildFromResults (stats : ContractStatsInput) (accountAddress : String)
    (r0 r1 r2 r3 r4 : ConversionResult) : BuildArgsResult :=
  let acc := unwrapStep r0 "accountAddress"
      ("accountAddress: " ++ accountAddress) ([], [], [])
  let acc := unwrapStep r1 "totalVolume"
      ("totalVolume: " ++ jsDisplay stats.totalVolume ++ " (u64)") acc
  let acc := unwrapStep r2 "mostActiveAsset"
      ("mostActiveAsset: \"" ++ jsDisplay stats.mostActiveAsset ++
        "\" (string)") acc
  let acc := unwrapStep r3 "contractCalls"
      ("contractCalls: " ++ jsDisplay stats.contractCalls ++ " (u32)") acc
  let acc := unwrapStep r4 "timeframe"
      ("timeframe: \"" ++ jsDisplay (timeframeOrDefault stats.timeframe) ++
        "\" (string)") acc
  if 0 < acc.1.length then BuildArgsResult.failure acc.1
  else BuildArgsResult.success ⟨acc.2.1, acc.2.2⟩

/-- Builds the ordered ScVal argument list from indexed stats and an
account address: validation first (returning all validation errors before
any conversion), then the five conversions with error accumulation. -/
def buildContractArgs (K : StrKeyOracle) (stats : ContractStatsInput)
    (accountAddress : String) : Except String BuildArgsResult := do
  let validationErrors := validateIndexedStats stats
  if 0 < validationErrors.length then
    return BuildArgsResult.failure validationErrors
  let addrRes ← addressToScVal K (.str accountAddress)
  let acc := unwrapStep addrRes "accountAddress"
      ("accountAddress: " ++ accountAddress) ([], [], [])
  let volRes ← toScVal K stats.totalVolume (some .u64)
  let acc := unwrapStep volRes "totalVolume"
      ("totalVolume: " ++ jsDisplay stats.totalVolume ++ " (u64)") acc
  let assetRes ← toScVal K stats.mostActiveAsset (some .string)
  let acc := unwrapStep assetRes "mostActiveAsset"
      ("mostActiveAsset: \"" ++ jsDisplay stats.mostActiveAsset ++
        "\" (string)") acc
  let callsRes ← toScVal K stats.contractCalls (some .u32)
  let acc := unwrapStep callsRes "contractCalls"
      ("contractCalls: " ++ jsDisplay stats.contractCalls ++ " (u32)") acc
  let tfRes ← toScVal K (timeframeOrDefault stats.timeframe) (some .string)
  let acc := unwrapStep tfRes "timeframe"
      ("timeframe: \"" ++ jsDisplay (timeframeOrDefault stats.timeframe) ++
        "\" (string)") acc
  if 0 < acc.1.length then
    return BuildArgsResult.failure acc.1
  return BuildArgsResult.success ⟨acc.2.1, acc.2.2⟩

end contractArgsBuilder

-- ===================================================================
-- src/services/contractBridge.ts (invocation lifecycle)
-- ===================================================================

namespace contractBridge

/-- Transaction state during the mint lifecycle. -/
inductive TransactionState where
  | pending | simulating | signed | submitted | confirmed | failed
deriving DecidableEq

/-- A thrown JS value as seen by a catch clause: an Error object carrying
a message, a bare string, or anything else. -/
inductive JSError where
  | error : String → JSError
  | str : String → JSError
  | other : JSError

/-- Maximum number of confirmation polling attempts. -/
def MAX_CONFIRMATION_ATTEMPTS : ℕ := 60

/-- Delay between confirmation polling attempts (ms). -/
def CONFIRMATION_POLL_INTERVAL : ℕ := 2000

/-- Transaction timeout (ms). -/
def TRANSACTION_TIMEOUT : ℕ := 120000

/-- Parses contract errors from simulation or execution results into the
human-readable classification (fee, contract revert, user rejection,
network/timeout, verbatim fallback, unknown). -/
def parseContractError (e : JSError) : String :=
  match e with
  | .error message =>
    if strIncludes message "insufficient_fee" || strIncludes message "fee" then
      "Insufficient transaction fee. Please try again."
    else if strIncludes message "HostError" ||
        strIncludes message "ContractError" then
      "Contract error: " ++ message
    else if strIncludes message "User declined" ||
        strIncludes message "rejected" then
      "Transaction was rejected by user"
    else if strIncludes message "network" || strIncludes message "timeout" then
      "Network error. Please check your connection and try again."
    else message
  | .str s => s
  | .other => "Unknown error occurred during transaction"

/-- Outcome of server.simulateTransaction: a thrown transport error, a
response carrying an error or errorResult, or a clean response. -/
inductive SimResponse where
  | throws : JSError → SimResponse
  | err : JSError → SimResponse
  | ok : SimResponse

/-- Outcome of the Freighter signTransaction call. -/
inductive SignResponse where
  | throws : JSError → SignResponse
  | errField : JSError → SignResponse
  | emptyXdr : SignResponse
  | ok : String → SignResponse

/-- Outcome of server.sendTransaction. -/
inductive SubmitResponse where
  | throws : JSError → SubmitResponse
  | errorResult : JSError → SubmitResponse
  | noHash : SubmitResponse
  | ok : String → SubmitResponse

/-- Outcome of one server.getTransaction poll: SUCCESS with a ledger,
FAILED, a still-pending status (NOT_FOUND or PENDING), or a thrown
error. -/
inductive GetTxResponse where
  | success : ℕ → GetTxResponse
  | failed : GetTxResponse
  | pending : GetTxResponse
  | throws : JSError → GetTxResponse

/-- Result of a successful mint operation. -/
structure MintResult where
  transactionHash : String
  ledger : ℕ
  state : TransactionState

/-- The network, wallet and clock collaborators of one invocation,
supplied abstractly: the outcome of the transaction-build step, the
simulation, the signature request, the submission, the poll response at
each attempt, the clock reading at each attempt, and the lifecycle start
time. -/
structure MintEnv where
  buildResult : Except JSError Unit
  simResponse : SimResponse
  signResponse : SignResponse
  submitResponse : SubmitResponse
  getTx : ℕ → GetTxResponse
  now : ℕ → ℕ
  startTime : ℕ

/-- simulateTransaction: emits simulating, dry-runs, and on an error in
the response emits failed and raises; its own catch then reclassifies,
emits failed again and raises the wrapping simulation error. -/
def simulateTransaction (r : SimResponse) :
    List TransactionState × Except JSError Unit :=
  match r with
  | .ok => ([TransactionState.simulating], Except.ok ())
  | .err e =>
    let errorMessage := parseContractError e
    let inner := "Transaction simulation failed: " ++ errorMessage
    let errorMessage2 := parseContractError (.error inner)
    ([TransactionState.simulating, TransactionState.failed,
      TransactionState.failed],
     Except.error (.error ("Transaction simulation error: " ++ errorMessage2)))
  | .throws e =>
    ([TransactionState.simulating, TransactionState.failed],
     Except.error (.error ("Transaction simulation error: " ++
       parseContractError e)))

/-- signTransactionWithFreighter: emits signed, requests the wallet
signature; a reported error or an empty payload raises inside the try,
whose catch emits failed and rethrows the original error. -/
def signTransactionWithFreighter (r : SignResponse) :
    List TransactionState × Except JSError String :=
  match r with
  | .ok signedXdr => ([TransactionState.signed], Except.ok signedXdr)
  | .errField e =>
    let errorMessage := parseContractError e
    ([TransactionState.signed, TransactionState.failed,
      TransactionState.failed],
     Except.error (.error ("Signing failed: " ++ errorMessage)))
  | .emptyXdr =>
    ([TransactionState.signed, TransactionState.failed],
     Except.error (.error "Freighter returned empty signed transaction"))
  | .throws e =>
    ([TransactionState.signed, TransactionState.failed], Except.error e)

/-- submitTransaction: emits submitted, sends; an errorResult or a missing
hash raises inside the try, whose catch emits failed and rethrows. -/
def submitTransaction (r : SubmitResponse) :
    List TransactionState × Except JSError String :=
  match r with
  | .ok hash => ([TransactionState.submitted], Except.ok hash)
  | .errorResult e =>
    let errorMessage := parseContractError e
    ([TransactionState.submitted, TransactionState.failed,
      TransactionState.failed],
     Except.error (.error ("Transaction submission failed: " ++ errorMessage)))
  | .noHash =>
    ([TransactionState.submitted, TransactionState.failed],
     Except.error (.error "Transaction submitted but no hash returned"))
  | .throws e =>
    ([TransactionState.submitted, TransactionState.failed], Except.error e)

/-- The confirmation polling loop from a given attempt count: while the
attempt budget is unspent, first the wall-clock check against the
lifecycle start, then one getTransaction poll; SUCCESS emits confirmed
and returns the ledger, FAILED emits failed and raises terminally,
NOT_FOUND and PENDING continue, a thrown error continues unless its
message marks the explicit on-chain failure; an exhausted budget raises
the attempts message. -/
def waitForConfirmationFrom (getTx : ℕ → GetTxResponse) (now : ℕ → ℕ)
    (startTime : ℕ) (attempts : ℕ) :
    List TransactionState × Except JSError ℕ :=
  if attempts < MAX_CONFIRMATION_ATTEMPTS then
    if TRANSACTION_TIMEOUT < now attempts - startTime then
      ([], Except.error (.error "Transaction confirmation timeout"))
    else
      match getTx attempts with
      | .success ledger => ([TransactionState.confirmed], Except.ok ledger)
      | .failed =>
        ([TransactionState.failed],
         Except.error (.error "Transaction failed on network"))
      | .pending => waitForConfirmationFrom getTx now startTime (attempts + 1)
      | .throws e =>
        match e with
        | .error m =>
          if strIncludes m "Transaction failed" then
            ([], Except.error (.error m))
          else waitForConfirmationFrom getTx now startTime (attempts + 1)
        | _ => waitForConfirmationFrom getTx now startTime (attempts + 1)
  else
    ([], Except.error (.error ("Transaction not confirmed after " ++
      toString MAX_CONFIRMATION_ATTEMPTS ++ " attempts")))
termination_by MAX_CONFIRMATION_ATTEMPTS - attempts
decreasing_by
  all_goals simp only [MAX_CONFIRMATION_ATTEMPTS] at *
  all_goals omega

/-- Polls for transaction confirmation (from attempt zero). -/
def waitForConfirmation (getTx : ℕ → GetTxResponse) (now : ℕ → ℕ)
    (startTime : ℕ) : List TransactionState × Except JSError ℕ :=
  waitForConfirmationFrom getTx now startTime 0

/-- The full mint lifecycle: pending, build, simulate, sign, submit, poll;
any step error reaches the final catch, which classifies it, emits failed
and rejects with the classified minting message.  The first component is
the sequence of states the observer receives. -/
def mintWrap (env : MintEnv) : List TransactionState × Except String MintResult :=
  let t0 := [TransactionState.pending]
  match env.buildResult with
  | Except.error e =>
    (t0 ++ [TransactionState.failed],
     Except.error ("Minting failed: " ++ parseContractError e))
  | Except.ok _ =>
    let sim := simulateTransaction env.simResponse
    match sim.2 with
    | Except.error e =>
      (t0 ++ sim.1 ++ [TransactionState.failed],
       Except.error ("Minting failed: " ++ parseContractError e))
    | Except.ok _ =>
      let sgn := signTransactionWithFreighter env.signResponse
      match sgn.2 with
      | Except.error e =>
        (t0 ++ sim.1 ++ sgn.1 ++ [TransactionState.failed],
         Except.error ("Minting failed: " ++ parseContractError e))
      | Except.ok _ =>
        let sub := submitTransaction env.submitResponse
        match sub.2 with
        | Except.error e =>
          (t0 ++ sim.1 ++ sgn.1 ++ sub.1 ++ [TransactionState.failed],
           Except.error ("Minting failed: " ++ parseContractError e))
        | Except.ok transactionHash =>
          let wait := waitForConfirmation env.getTx env.now env.startTime
          match wait.2 with
          | Except.error e =>
            (t0 ++ sim.1 ++ sgn.1 ++ sub.1 ++ wait.1 ++
              [TransactionState.failed],
             Except.error ("Minting failed: " ++ parseContractError e))
          | Except.ok ledger =>
            (t0 ++ sim.1 ++ sgn.1 ++ sub.1 ++ wait.1,
             Except.ok ⟨transactionHash, ledger, TransactionState.confirmed⟩)

end contractBridge

-- ===================================================================
-- app/utils/contractBridge.ts (per-network contract instance cache)
-- ===================================================================

namespace appContractBridge

/-- The two supported networks. -/
inductive Network where
  | mainnet | testnet
deriving DecidableEq

/-- The environment variables consulted by the contract configuration. -/
structure EnvVars where
  legacy : Option String
  mainnetVar : Option String
  testnetVar : Option String

/-- JS a || b on an optional string: an unset or empty-string variable
falls through. -/
def jsOr (a : Option String) (b : String) : String :=
  match a with
  | some s => if s = "" then b else s
  | none => b

/-- Placeholder when no contract is configured. -/
def PLACEHOLDER_ADDRESS : String :=
  "C" ++ String.mk (List.replicate 55 'A')

/-- Per-network contract address with env overrides: the network-specific
variable, then the legacy variable, then the placeholder default. -/
def getContractConfigAddress (env : EnvVars) : Network → String
  | .mainnet => jsOr env.mainnetVar (jsOr env.legacy PLACEHOLDER_ADDRESS)
  | .testnet => jsOr env.testnetVar (jsOr env.legacy PLACEHOLDER_ADDRESS)

/-- Base32 uppercase alphabet test. -/
def isBase32Char (c : Char) : Bool :=
  ('A' ≤ c && c ≤ 'Z') || ('2' ≤ c && c ≤ '7')

/-- Soroban contract address format: 56 characters, C then 55 base32
characters. -/
def isValidContractAddress (address : String) : Bool :=
  if address.length ≠ 56 then false
  else
    match address.data with
    | 'C' :: rest => rest.length = 55 && rest.all isBase32Char
    | _ => false

/-- Network name as rendered into messages. -/
def networkName : Network → String
  | .mainnet => "mainnet"
  | .testnet => "testnet"

/-- getContractAddress: resolves the configured address for the network
and raises when the format is invalid. -/
def getContractAddress (env : EnvVars) (network : Network) :
    Except String String :=
  let address := getContractConfigAddress env network
  if ¬ isValidContractAddress address then
    Except.error ("Invalid contract address for " ++ networkName network ++
      ": address must be 56 characters, C-prefix, base32. Got: " ++
      (address.take 20) ++ "...")
  else Except.ok address

/-- The module-level contract instance cache, one optional entry per
network.  A Contract instance is represented by the address it wraps. -/
def Cache : Type := Network → Option String

/-- The empty cache. -/
def emptyCache : Cache := fun _ => none

/-- getContractInstance: returns the cached instance when present;
otherwise resolves the address, validates it, constructs the instance and
populates the cache.  Raised configuration or format errors leave the
cache untouched. -/
def getContractInstance (env : EnvVars) (cache : Cache) (network : Network) :
    Cache × Except String String :=
  match cache network with
  | some cached => (cache, Except.ok cached)
  | none =>
    match getContractAddress env network with
    | Except.error m => (cache, Except.error m)
    | Except.ok address =>
      if ¬ isValidContractAddress address then
        (cache, Except.error ("InvalidContractAddressError: " ++ address ++
          " on " ++ networkName network))
      else
        (fun n => if n = network then some address else cache n,
         Except.ok address)

/-- clearContractCache: deletes every cached entry. -/
def clearContractCache (_cache : Cache) : Cache :=
  fun _ => none

/-- hasCachedContract. -/
def hasCachedContract (cache : Cache) (network : Network) : Bool :=
  (cache network).isSome

end appContractBridge

-- ===================================================================
-- Concrete fixtures used by witnesses and counterexamples
-- ===================================================================

namespace fixtures

open sorobanConverter contractArgsBuilder contractBridge appContractBridge

/-- An oracle accepting every checksum (one admissible behavior of the
external StrKey validators). -/
def oracleAllValid : StrKeyOracle := ⟨fun _ => true, fun _ => true⟩

/-- A 56-character G-prefixed address, accepted under oracleAllValid. -/
def sampleAddress : String := "G" ++ String.mk (List.replicate 55 'A')

/-- The spec example stats record. -/
def sampleStats : ContractStatsInput :=
  ⟨.num (.fin 45000), .str "XLM", .num (.fin 120), .str "yearly"⟩

/-- Stats passing validation whose contractCalls exceeds the u32 bound. -/
def overflowStats : ContractStatsInput :=
  ⟨.num (.fin 45000), .str "XLM", .num (.fin 4294967296), .undef⟩

/-- Stats with two validation violations at once. -/
def twoViolationStats : ContractStatsInput :=
  ⟨.num (.fin (-1)), .str "", .num (.fin 120), .undef⟩

/-- Stats passing validation whose volume exceeds the u64 bound. -/
def hugeVolumeStats : ContractStatsInput :=
  ⟨.num (.fin 20000000000000000000), .str "XLM", .num (.fin 120), .undef⟩

/-- Stats whose timeframe is the empty string. -/
def emptyTimeframeStats : ContractStatsInput :=
  ⟨.num (.fin 45000), .str "XLM", .num (.fin 120), .str ""⟩

/-- Stats with an absent timeframe. -/
def noTimeframeStats : ContractStatsInput :=
  ⟨.num (.fin 45000), .str "XLM", .num (.fin 120), .undef⟩

/-- Lifecycle environment whose simulation reports an error. -/
def simFailEnv : MintEnv :=
  ⟨Except.ok (), SimResponse.err .other, SignResponse.ok "signedxdr",
   SubmitResponse.ok "deadbeef", fun _ => GetTxResponse.pending,
   fun _ => 0, 0⟩

/-- Lifecycle environment that never confirms: every poll still pending,
the clock frozen at lifecycle start. -/
def pendingEnv : MintEnv :=
  ⟨Except.ok (), SimResponse.ok, SignResponse.ok "signedxdr",
   SubmitResponse.ok "deadbeef", fun _ => GetTxResponse.pending,
   fun _ => 0, 0⟩

/-- The rational -1.5 as an explicit reduced fraction. -/
def negOnePointFive : ℚ := ⟨-3, 2, by decide, by decide⟩

/-- Unset contract environment variables. -/
def envNone : EnvVars := ⟨none, none, none⟩

/-- A cache with one stale entry per network. -/
def staleCache : Cache := fun _ => some "STALE"

end fixtures

-- ===================================================================
-- Helper lemmas
-- ===================================================================

theorem charsInfix_append_right (pat b : List Char) (h : charsInfix pat b = true) :
    ∀ a : List Char, charsInfix pat (a ++ b) = true := by
  intro a
  induction a with
  | nil => simpa using h
  | cons c rest ih =>
    show (charsStartWith pat (c :: (rest ++ b)) || charsInfix pat (rest ++ b)) = true
    rw [Bool.or_eq_true]
    exact Or.inr ih

theorem strIncludes_append_right (a b pat : String)
    (h : strIncludes b pat = true) : strIncludes (a ++ b) pat = true := by
  unfold strIncludes at h ⊢
  rw [String.data_append]
  exact charsInfix_append_right pat.data b.data h a.data

namespace sorobanConverter

theorem jsTry_ok (body : Except String ConversionResult)
    (handler : String → ConversionResult) :
    ∃ r, jsTry body handler = Except.ok r := by
  cases body with
  | ok r => exact ⟨r, rfl⟩
  | error m => exact ⟨handler m, rfl⟩

theorem numberToScValU32_ok (value : JSValue) :
    ∃ r, numberToScValU32 value = Except.ok r :=
  jsTry_ok _ _

theorem numberToScValU64_ok (value : JSValue) :
    ∃ r, numberToScValU64 value = Except.ok r :=
  jsTry_ok _ _

theorem numberToScValI64_ok (value : JSValue) :
    ∃ r, numberToScValI64 value = Except.ok r :=
  jsTry_ok _ _

theorem stringToScVal_ok (value : JSValue) :
    ∃ r, stringToScVal value = Except.ok r :=
  jsTry_ok _ _

theorem objectToScValMap_ok (K : StrKeyOracle) (value : JSValue)
    (valueTypes : Option (List (String × ScValTargetType))) :
    ∃ r, objectToScValMap K value valueTypes = Except.ok r := by
  rw [objectToScValMap]
  exact jsTry_ok _ _

theorem addressToScVal_ok (K : StrKeyOracle) (value : JSValue) :
    ∃ r, addressToScVal K value = Except.ok r :=
  jsTry_ok _ _

theorem toScVal_ok (K : StrKeyOracle) (value : JSValue)
    (ty : Option ScValTargetType) :
    ∃ r, toScVal K value ty = Except.ok r := by
  rw [toScVal]
  exact jsTry_ok _ _

theorem toScVal_u32_eq (K : StrKeyOracle) (v : JSValue) :
    toScVal K v (some .u32) = numberToScValU32 v := by
  obtain ⟨r, hr⟩ := numberToScValU32_ok v
  simp only [toScVal, toScValBody, hr, jsTry]

theorem toScVal_u64_eq (K : StrKeyOracle) (v : JSValue) :
    toScVal K v (some .u64) = numberToScValU64 v := by
  obtain ⟨r, hr⟩ := numberToScValU64_ok v
  simp only [toScVal, toScValBody, hr, jsTry]

theorem toScVal_string_eq (K : StrKeyOracle) (v : JSValue) :
    toScVal K v (some .string) = stringToScVal v := by
  obtain ⟨r, hr⟩ := stringToScVal_ok v
  simp only [toScVal, toScValBody, hr, jsTry]

theorem numberToScValU32_success (q : ℚ) (hden : q.den = 1) (h0 : 0 ≤ q)
    (h1 : q ≤ (U32_MAX : ℚ)) :
    numberToScValU32 (.num (.fin q)) =
      Except.ok (.success (.scvU32 q.num.toNat)) := by
  unfold numberToScValU32 numberToScValU32Body
  have hval : isValidU32 (.fin q) = true := by
    simp [isValidU32, JSNum.isIntegerB, JSNum.geQ, JSNum.leQ, hden, h0, h1]
  simp [JSNum.isNaNB, hval, jsTry]

theorem numberToScValU64_success (q : ℚ) (hf : (0 : ℤ) ≤ Rat.floor q)
    (h1 : Rat.floor q ≤ U64_MAX) :
    numberToScValU64 (.num (.fin q)) =
      Except.ok (.success (.scvU64 (Rat.floor q).toNat)) := by
  unfold numberToScValU64 numberToScValU64Body toBigVal
  simp only [jsToNumber, JSNum.mathFloor, jsBigIntOfNumber, Rat.den_intCast,
    Rat.num_intCast, if_true, bind, Except.bind]
  have h2 : ¬ (Rat.floor q < 0) := by omega
  have h3 : isValidU64 (Rat.floor q) = true := by
    simp [isValidU64, hf, h1]
  simp [h2, h3, nativeToScValInt, hf, h1, jsTry, pure, Except.pure]

theorem stringToScVal_success (s : String)
    (h : s.utf8ByteSize ≤ MAX_STRING_LENGTH) :
    stringToScVal (.str s) = Except.ok (.success (.scvString s)) := by
  unfold stringToScVal stringToScValBody
  simp [isValidScString, h, jsTry]

theorem addressToScVal_success (K : StrKeyOracle) (addr : String)
    (ht : jsTrim addr = addr)
    (hv : isValidStellarAddress K addr = true) :
    addressToScVal K (.str addr) = Except.ok (.success (.scvAddress addr)) := by
  unfold addressToScVal addressToScValBody
  simp [ht, hv, jsTry]

theorem numberToScValU32_failure (q : ℚ)
    (h : q < 0 ∨ (U32_MAX : ℚ) < q ∨ q.den ≠ 1) :
    numberToScValU32 (.num (.fin q)) =
      Except.ok (.failure (("Value " ++ jsDisplay (.num (.fin q))) ++
        (" is out of u32 range [0, " ++ (toString U32_MAX ++ "]")))) := by
  have hval : isValidU32 (.fin q) = false := by
    rcases h with h | h | h
    · simp [isValidU32, JSNum.geQ, not_le.mpr h]
    · simp [isValidU32, JSNum.leQ, not_le.mpr h]
    · simp [isValidU32, JSNum.isIntegerB, h]
  unfold numberToScValU32 numberToScValU32Body
  simp only [JSNum.isNaNB, Bool.false_eq_true, if_false, hval,
    Bool.not_false, if_true, jsTry]
  congr 2
  simp [String.append_assoc]

theorem numberToScValU32_names_bound (q : ℚ)
    (h : q < 0 ∨ (U32_MAX : ℚ) < q ∨ q.den ≠ 1) :
    ∃ e, numberToScValU32 (.num (.fin q)) = Except.ok (.failure e) ∧
      strIncludes e "u32 range [0, 4294967295]" = true := by
  refine ⟨_, numberToScValU32_failure q h, ?_⟩
  apply strIncludes_append_right
  decide

theorem numberToScValI64_success (q : ℚ)
    (h1 : -(2 ^ 63) ≤ Rat.floor q) (h2 : Rat.floor q ≤ 2 ^ 63 - 1) :
    numberToScValI64 (.num (.fin q)) =
      Except.ok (.success (.scvI64 (Rat.floor q))) := by
  have hp : ((2 : ℤ) ^ 63) = 9223372036854775808 := by norm_num
  rw [hp] at h1 h2
  unfold numberToScValI64 numberToScValI64Body toBigVal
  simp only [jsToNumber, JSNum.mathFloor, jsBigIntOfNumber, Rat.den_intCast,
    Rat.num_intCast, if_true, bind, Except.bind]
  have hc : ¬ (Rat.floor q < -9223372036854775808 ∨
      9223372036854775807 < Rat.floor q) := by
    push_neg
    exact ⟨by omega, by omega⟩
  have hin : -9223372036854775808 ≤ Rat.floor q ∧
      Rat.floor q ≤ 9223372036854775807 := ⟨by omega, by omega⟩
  rw [if_neg hc]
  simp only [nativeToScValInt]
  rw [if_pos (by push_cast; exact ⟨by omega, by omega⟩)]
  rfl

theorem numberToScValI64_bigint (i : ℤ) (h1 : -(2 ^ 63) ≤ i)
    (h2 : i ≤ 2 ^ 63 - 1) :
    numberToScValI64 (.bigint i) = Except.ok (.success (.scvI64 i)) := by
  have hp : ((2 : ℤ) ^ 63) = 9223372036854775808 := by norm_num
  rw [hp] at h1 h2
  unfold numberToScValI64 numberToScValI64Body toBigVal
  simp only [bind, Except.bind]
  have hc : ¬ (i < -9223372036854775808 ∨ 9223372036854775807 < i) := by
    push_neg
    exact ⟨by omega, by omega⟩
  rw [if_neg hc]
  simp only [nativeToScValInt]
  rw [if_pos (by push_cast; exact ⟨by omega, by omega⟩)]
  rfl

theorem numberToScValU128_success (q : ℚ)
    (h0 : 0 ≤ Rat.floor q) (h1 : Rat.floor q ≤ 2 ^ 128 - 1) :
    numberToScValU128 (.num (.fin q)) =
      Except.ok (.success (.scvU128 (Rat.floor q).toNat)) := by
  unfold numberToScValU128 numberToScValU128Body toBigVal
  simp only [jsToNumber, JSNum.mathFloor, jsBigIntOfNumber, Rat.den_intCast,
    Rat.num_intCast, if_true, bind, Except.bind]
  rw [if_neg (by omega : ¬ (Rat.floor q < 0))]
  simp only [nativeToScValInt]
  rw [if_pos ⟨h0, h1⟩]
  rfl

theorem numberToScValI128_success (q : ℚ)
    (h1 : -(2 ^ 127) ≤ Rat.floor q) (h2 : Rat.floor q ≤ 2 ^ 127 - 1) :
    numberToScValI128 (.num (.fin q)) =
      Except.ok (.success (.scvI128 (Rat.floor q))) := by
  unfold numberToScValI128 numberToScValI128Body toBigVal
  simp only [jsToNumber, JSNum.mathFloor, jsBigIntOfNumber, Rat.den_intCast,
    Rat.num_intCast, if_true, bind, Except.bind]
  simp only [nativeToScValInt]
  rw [if_pos ⟨h1, h2⟩]
  rfl


end sorobanConverter

namespace contractArgsBuilder

open sorobanConverter

theorem ite_ok {c : Prop} [Decidable c] {ε α : Type} (a b : α) :
    ∃ r, (if c then Except.ok a else Except.ok b : Except ε α) =
      Except.ok r := by
  split
  · exact ⟨a, rfl⟩
  · exact ⟨b, rfl⟩

theorem buildContractArgs_ok (K : StrKeyOracle) (stats : ContractStatsInput)
    (accountAddress : String) :
    ∃ b, buildContractArgs K stats accountAddress = Except.ok b := by
  by_cases h : 0 < (validateIndexedStats stats).length
  · refine ⟨BuildArgsResult.failure (validateIndexedStats stats), ?_⟩
    simp only [buildContractArgs, h, if_true, pure, Except.pure]
  · obtain ⟨r0, h0⟩ := addressToScVal_ok K (.str accountAddress)
    obtain ⟨r1, h1⟩ := toScVal_ok K stats.totalVolume (some .u64)
    obtain ⟨r2, h2⟩ := toScVal_ok K stats.mostActiveAsset (some .string)
    obtain ⟨r3, h3⟩ := toScVal_ok K stats.contractCalls (some .u32)
    obtain ⟨r4, h4⟩ :=
      toScVal_ok K (timeframeOrDefault stats.timeframe) (some .string)
    simp only [buildContractArgs, h, if_false, h0, h1, h2, h3, h4, bind,
      Except.bind, pure, Except.pure]
    exact ite_ok _ _

/-- Characterization of buildContractArgs after a clean validation pass,
in terms of the five conversion results. -/
theorem buildContractArgs_eq (K : StrKeyOracle) (stats : ContractStatsInput)
    (accountAddress : String) (h : validateIndexedStats stats = [])
    (r0 r1 r2 r3 r4 : ConversionResult)
    (h0 : addressToScVal K (.str accountAddress) = Except.ok r0)
    (h1 : toScVal K stats.totalVolume (some .u64) = Except.ok r1)
    (h2 : toScVal K stats.mostActiveAsset (some .string) = Except.ok r2)
    (h3 : toScVal K stats.contractCalls (some .u32) = Except.ok r3)
    (h4 : toScVal K (timeframeOrDefault stats.timeframe) (some .string) =
      Except.ok r4) :
    buildContractArgs K stats accountAddress =
      Except.ok (buildFromResults stats accountAddress r0 r1 r2 r3 r4) := by
  unfold buildContractArgs buildFromResults
  simp only [h, List.length_nil, lt_irrefl, if_false, h0, h1, h2, h3, h4,
    bind, Except.bind, pure, Except.pure]
  split <;> rfl


theorem validateTotalVolume_clean (qv : ℚ) (h0 : 0 ≤ qv) :
    validateTotalVolume (.num (.fin qv)) = [] := by
  simp [validateTotalVolume, JSNum.ltQ, JSNum.isFiniteB, not_lt.mpr h0]

theorem validateMostActiveAsset_clean (s : String)
    (h : (jsTrim s).length ≠ 0) :
    validateMostActiveAsset (.str s) = [] := by
  simp [validateMostActiveAsset, h]

theorem validateContractCalls_clean (qc : ℚ) (hden : qc.den = 1) (h0 : 0 ≤ qc) :
    validateContractCalls (.num (.fin qc)) = [] := by
  simp [validateContractCalls, JSNum.isIntegerB, JSNum.ltQ, hden, not_lt.mpr h0]

theorem validateIndexedStats_clean (stats : ContractStatsInput) (qv qc : ℚ)
    (asset : String)
    (hv : stats.totalVolume = .num (.fin qv)) (hv0 : 0 ≤ qv)
    (ha : stats.mostActiveAsset = .str asset)
    (ha0 : (jsTrim asset).length ≠ 0)
    (hc : stats.contractCalls = .num (.fin qc)) (hcden : qc.den = 1)
    (hc0 : 0 ≤ qc)
    (htf : validateTimeframe stats.timeframe = []) :
    validateIndexedStats stats = [] := by
  simp [validateIndexedStats, hv, ha, hc, htf,
    validateTotalVolume_clean qv hv0,
    validateMostActiveAsset_clean asset ha0,
    validateContractCalls_clean qc hcden hc0]

theorem buildFromResults_success (stats : ContractStatsInput) (addr : String)
    (a0 a1 a2 a3 a4 : ScVal) :
    buildFromResults stats addr (.success a0) (.success a1) (.success a2)
      (.success a3) (.success a4) =
    BuildArgsResult.success ⟨[a0, a1, a2, a3, a4],
      ["accountAddress: " ++ addr,
       "totalVolume: " ++ jsDisplay stats.totalVolume ++ " (u64)",
       "mostActiveAsset: \"" ++ jsDisplay stats.mostActiveAsset ++ "\" (string)",
       "contractCalls: " ++ jsDisplay stats.contractCalls ++ " (u32)",
       "timeframe: \"" ++ jsDisplay (timeframeOrDefault stats.timeframe) ++
         "\" (string)"]⟩ := by
  simp [buildFromResults, unwrapStep]

/-- When validation passes and the five conversions succeed, the build
result is the success carrying exactly the five arguments in order and
five matching descriptions. -/
theorem buildContractArgs_success_spec (K : StrKeyOracle)
    (stats : ContractStatsInput) (addr : String) (qv qc : ℚ)
    (asset tfv : String)
    (hv : stats.totalVolume = .num (.fin qv)) (hv0 : 0 ≤ qv)
    (hv1 : Rat.floor qv ≤ U64_MAX)
    (ha : stats.mostActiveAsset = .str asset)
    (ha0 : (jsTrim asset).length ≠ 0)
    (ha1 : asset.utf8ByteSize ≤ MAX_STRING_LENGTH)
    (hc : stats.contractCalls = .num (.fin qc)) (hcden : qc.den = 1)
    (hc0 : 0 ≤ qc) (hc1 : qc ≤ (U32_MAX : ℚ))
    (htfv : validateTimeframe stats.timeframe = [])
    (htf : timeframeOrDefault stats.timeframe = .str tfv)
    (htf1 : tfv.utf8ByteSize ≤ MAX_STRING_LENGTH)
    (haddr : jsTrim addr = addr)
    (hK : isValidStellarAddress K addr = true) :
    validateIndexedStats stats = [] ∧
    ∃ descs,
      buildContractArgs K stats addr = Except.ok (BuildArgsResult.success
        ⟨[.scvAddress addr, .scvU64 (Rat.floor qv).toNat, .scvString asset,
          .scvU32 qc.num.toNat, .scvString tfv], descs⟩) ∧
      descs.length = 5 := by
  have hclean := validateIndexedStats_clean stats qv qc asset hv hv0 ha ha0
    hc hcden hc0 htfv
  refine ⟨hclean, ?_⟩
  have h0 := addressToScVal_success K addr haddr hK
  have h1 : toScVal K stats.totalVolume (some .u64) =
      Except.ok (.success (.scvU64 (Rat.floor qv).toNat)) := by
    rw [hv, toScVal_u64_eq]
    exact numberToScValU64_success qv
      (Rat.le_floor.mpr (by exact_mod_cast hv0)) hv1
  have h2 : toScVal K stats.mostActiveAsset (some .string) =
      Except.ok (.success (.scvString asset)) := by
    rw [ha, toScVal_string_eq]
    exact stringToScVal_success asset ha1
  have h3 : toScVal K stats.contractCalls (some .u32) =
      Except.ok (.success (.scvU32 qc.num.toNat)) := by
    rw [hc, toScVal_u32_eq]
    exact numberToScValU32_success qc hcden hc0 hc1
  have h4 : toScVal K (timeframeOrDefault stats.timeframe) (some .string) =
      Except.ok (.success (.scvString tfv)) := by
    rw [htf, toScVal_string_eq]
    exact stringToScVal_success tfv htf1
  rw [buildContractArgs_eq K stats addr hclean _ _ _ _ _ h0 h1 h2 h3 h4,
    buildFromResults_success]
  exact ⟨_, rfl, rfl⟩

theorem buildFromResults_failures (stats : ContractStatsInput) (addr : String)
    (r0 r1 r2 r3 r4 : ConversionResult)
    (h : (isConversionError r0 || isConversionError r1 ||
      isConversionError r2 || isConversionError r3 ||
      isConversionError r4) = true) :
    ∃ errs, buildFromResults stats addr r0 r1 r2 r3 r4 =
        BuildArgsResult.failure errs ∧
      (∀ e, r0 = .failure e → ("accountAddress: " ++ e) ∈ errs) ∧
      (∀ e, r1 = .failure e → ("totalVolume: " ++ e) ∈ errs) ∧
      (∀ e, r2 = .failure e → ("mostActiveAsset: " ++ e) ∈ errs) ∧
      (∀ e, r3 = .failure e → ("contractCalls: " ++ e) ∈ errs) ∧
      (∀ e, r4 = .failure e → ("timeframe: " ++ e) ∈ errs) := by
  cases r0 <;> cases r1 <;> cases r2 <;> cases r3 <;> cases r4 <;>
    simp_all [buildFromResults, unwrapStep, isConversionError]


end contractArgsBuilder

namespace contractBridge

theorem waitFrom_attempts_exhausted (getTx : ℕ → GetTxResponse) (now : ℕ → ℕ)
    (st : ℕ) (hp : ∀ k, getTx k = GetTxResponse.pending) :
    ∀ fuel a, MAX_CONFIRMATION_ATTEMPTS - a = fuel →
    (∀ k, a ≤ k → k < MAX_CONFIRMATION_ATTEMPTS →
      now k - st ≤ TRANSACTION_TIMEOUT) →
    waitForConfirmationFrom getTx now st a =
      ([], Except.error (.error ("Transaction not confirmed after " ++
        toString MAX_CONFIRMATION_ATTEMPTS ++ " attempts"))) := by
  intro fuel
  induction fuel with
  | zero =>
    intro a ha _
    have hge : ¬ a < MAX_CONFIRMATION_ATTEMPTS := by omega
    rw [waitForConfirmationFrom]
    simp [hge]
  | succ n ih =>
    intro a ha htime
    by_cases hlt : a < MAX_CONFIRMATION_ATTEMPTS
    · have ht : ¬ TRANSACTION_TIMEOUT < now a - st := by
        have := htime a le_rfl hlt
        omega
      rw [waitForConfirmationFrom]
      simp only [hlt, if_true, ht, if_false, hp a]
      exact ih (a + 1) (by omega) (fun k hk1 hk2 => htime k (by omega) hk2)
    · rw [waitForConfirmationFrom]
      simp [hlt]

theorem waitFrom_timeout (getTx : ℕ → GetTxResponse) (now : ℕ → ℕ)
    (st : ℕ) (hp : ∀ k, getTx k = GetTxResponse.pending) :
    ∀ fuel a j, MAX_CONFIRMATION_ATTEMPTS - a = fuel → a ≤ j →
    j < MAX_CONFIRMATION_ATTEMPTS →
    (∀ k, a ≤ k → k < j → now k - st ≤ TRANSACTION_TIMEOUT) →
    TRANSACTION_TIMEOUT < now j - st →
    waitForConfirmationFrom getTx now st a =
      ([], Except.error (.error "Transaction confirmation timeout")) := by
  intro fuel
  induction fuel with
  | zero =>
    intro a j ha haj hj _ _
    omega
  | succ n ih =>
    intro a j ha haj hj htime hover
    have hlt : a < MAX_CONFIRMATION_ATTEMPTS := by omega
    by_cases heq : a = j
    · subst heq
      rw [waitForConfirmationFrom]
      simp [hlt, hover]
    · have ht : ¬ TRANSACTION_TIMEOUT < now a - st := by
        have := htime a le_rfl (by omega)
        omega
      rw [waitForConfirmationFrom]
      simp only [hlt, if_true, ht, if_false, hp a]
      exact ih (a + 1) j (by omega) (by omega) hj
        (fun k hk1 hk2 => htime k (by omega) hk2) hover

theorem waitFrom_pending_disj (getTx : ℕ → GetTxResponse) (now : ℕ → ℕ)
    (st : ℕ) (hp : ∀ k, getTx k = GetTxResponse.pending) :
    ∀ fuel a, MAX_CONFIRMATION_ATTEMPTS - a = fuel →
    waitForConfirmationFrom getTx now st a =
      ([], Except.error (.error "Transaction confirmation timeout")) ∨
    waitForConfirmationFrom getTx now st a =
      ([], Except.error (.error ("Transaction not confirmed after " ++
        toString MAX_CONFIRMATION_ATTEMPTS ++ " attempts"))) := by
  intro fuel
  induction fuel with
  | zero =>
    intro a ha
    have hge : ¬ a < MAX_CONFIRMATION_ATTEMPTS := by omega
    right
    rw [waitForConfirmationFrom]
    simp [hge]
  | succ n ih =>
    intro a ha
    by_cases hlt : a < MAX_CONFIRMATION_ATTEMPTS
    · by_cases ht : TRANSACTION_TIMEOUT < now a - st
      · left
        rw [waitForConfirmationFrom]
        simp [hlt, ht]
      · rw [waitForConfirmationFrom]
        simp only [hlt, if_true, ht, if_false, hp a]
        exact ih (a + 1) (by omega)
    · right
      rw [waitForConfirmationFrom]
      simp [hlt]

end contractBridge

-- ===================================================================
-- Claim theorems
-- ===================================================================

open sorobanConverter contractArgsBuilder

/-- Claim C1, counterexample: a stats record that passes validation
(non-negative finite volume, non-empty asset, non-negative integer call
count, absent timeframe) together with a valid account address on which
buildContractArgs nevertheless fails, because validation does not bound
contractCalls by the u32 maximum. -/
theorem c1_counterexample :
    validateIndexedStats fixtures.overflowStats = [] ∧
    isValidStellarAddress fixtures.oracleAllValid fixtures.sampleAddress =
      true ∧
    buildContractArgs fixtures.oracleAllValid fixtures.overflowStats
      fixtures.sampleAddress =
      Except.ok (BuildArgsResult.failure
        ["contractCalls: Value 4294967296 is out of u32 range [0, 4294967295]"]) := by
  have hval : validateIndexedStats fixtures.overflowStats = [] := rfl
  refine ⟨hval, rfl, ?_⟩
  have h0 : addressToScVal fixtures.oracleAllValid
      (.str fixtures.sampleAddress) =
      Except.ok (.success (.scvAddress fixtures.sampleAddress)) := by
    unfold addressToScVal addressToScValBody
    rfl
  have h1 : toScVal fixtures.oracleAllValid
      fixtures.overflowStats.totalVolume (some .u64) =
      Except.ok (.success (.scvU64 45000)) := by
    rw [toScVal_u64_eq]
    rfl
  have h2 : toScVal fixtures.oracleAllValid
      fixtures.overflowStats.mostActiveAsset (some .string) =
      Except.ok (.success (.scvString "XLM")) := by
    rw [toScVal_string_eq]
    rfl
  have h3 : toScVal fixtures.oracleAllValid
      fixtures.overflowStats.contractCalls (some .u32) =
      Except.ok (.failure
        "Value 4294967296 is out of u32 range [0, 4294967295]") := by
    rw [toScVal_u32_eq]
    rfl
  have h4 : toScVal fixtures.oracleAllValid
      (timeframeOrDefault fixtures.overflowStats.timeframe) (some .string) =
      Except.ok (.success (.scvString "all")) := by
    rw [toScVal_string_eq]
    rfl
  rw [buildContractArgs_eq fixtures.oracleAllValid fixtures.overflowStats
    fixtures.sampleAddress hval _ _ _ _ _ h0 h1 h2 h3 h4]
  rfl


open sorobanConverter contractArgsBuilder

/-- Claim C1, amended: for every stats record that passes validation and
additionally satisfies the conversion bounds (floored volume at most the
u64 maximum, asset and timeframe strings within the 256000-byte limit,
call count at most the u32 maximum), and every valid whitespace-free
account address, buildContractArgs succeeds with exactly five arguments
and five descriptions in the fixed order Address, U64, String, U32,
String, and the two sequences have equal length. -/
theorem c1_theorem (K : StrKeyOracle) (stats : ContractStatsInput)
    (addr : String) (qv qc : ℚ) (asset tfv : String)
    (hv : stats.totalVolume = .num (.fin qv)) (hv0 : 0 ≤ qv)
    (hv1 : Rat.floor qv ≤ U64_MAX)
    (ha : stats.mostActiveAsset = .str asset)
    (ha0 : (jsTrim asset).length ≠ 0)
    (ha1 : asset.utf8ByteSize ≤ MAX_STRING_LENGTH)
    (hc : stats.contractCalls = .num (.fin qc)) (hcden : qc.den = 1)
    (hc0 : 0 ≤ qc) (hc1 : qc ≤ (U32_MAX : ℚ))
    (htfv : validateTimeframe stats.timeframe = [])
    (htf : timeframeOrDefault stats.timeframe = .str tfv)
    (htf1 : tfv.utf8ByteSize ≤ MAX_STRING_LENGTH)
    (haddr : jsTrim addr = addr)
    (hK : isValidStellarAddress K addr = true) :
    validateIndexedStats stats = [] ∧
    ∃ args descs,
      buildContractArgs K stats addr =
        Except.ok (BuildArgsResult.success ⟨args, descs⟩) ∧
      args = [.scvAddress addr, .scvU64 (Rat.floor qv).toNat,
        .scvString asset, .scvU32 qc.num.toNat, .scvString tfv] ∧
      args.length = 5 ∧ descs.length = 5 ∧ args.length = descs.length := by
  obtain ⟨hclean, descs, hb, hlen⟩ := buildContractArgs_success_spec K stats
    addr qv qc asset tfv hv hv0 hv1 ha ha0 ha1 hc hcden hc0 hc1 htfv htf
    htf1 haddr hK
  refine ⟨hclean, _, descs, hb, rfl, by simp, hlen, ?_⟩
  rw [hlen]
  simp

/-- Witness for C1: the spec example stats succeed with the five arguments
in order. -/
theorem c1_witness :
    validateIndexedStats fixtures.sampleStats = [] ∧
    ∃ args descs,
      buildContractArgs fixtures.oracleAllValid fixtures.sampleStats
        fixtures.sampleAddress =
        Except.ok (BuildArgsResult.success ⟨args, descs⟩) ∧
      args = [.scvAddress fixtures.sampleAddress,
        .scvU64 (Rat.floor (45000 : ℚ)).toNat, .scvString "XLM",
        .scvU32 (120 : ℚ).num.toNat, .scvString "yearly"] ∧
      args.length = 5 ∧ descs.length = 5 ∧ args.length = descs.length :=
  c1_theorem fixtures.oracleAllValid fixtures.sampleStats
    fixtures.sampleAddress 45000 120 "XLM" "yearly" rfl (by norm_num)
    (by decide) rfl (by decide) (by decide) rfl (by decide) (by norm_num)
    (by decide) rfl rfl (by decide) rfl rfl


open sorobanConverter contractArgsBuilder

/-- Claim C10: with an empty-string timeframe and otherwise valid fields
and address, buildContractArgs succeeds and the fifth argument is the
empty string; the default substitution to "all" happens only for an
undefined (or null) timeframe, not for other falsy strings. -/
theorem c10_theorem (K : StrKeyOracle) (stats : ContractStatsInput)
    (addr : String) (qv qc : ℚ) (asset : String)
    (hv : stats.totalVolume = .num (.fin qv)) (hv0 : 0 ≤ qv)
    (hv1 : Rat.floor qv ≤ U64_MAX)
    (ha : stats.mostActiveAsset = .str asset)
    (ha0 : (jsTrim asset).length ≠ 0)
    (ha1 : asset.utf8ByteSize ≤ MAX_STRING_LENGTH)
    (hc : stats.contractCalls = .num (.fin qc)) (hcden : qc.den = 1)
    (hc0 : 0 ≤ qc) (hc1 : qc ≤ (U32_MAX : ℚ))
    (haddr : jsTrim addr = addr)
    (hK : isValidStellarAddress K addr = true) :
    (stats.timeframe = .str "" →
      timeframeOrDefault stats.timeframe = .str "" ∧
      ∃ descs, buildContractArgs K stats addr =
        Except.ok (BuildArgsResult.success
          ⟨[.scvAddress addr, .scvU64 (Rat.floor qv).toNat,
            .scvString asset, .scvU32 qc.num.toNat, .scvString ""],
           descs⟩) ∧ descs.length = 5) ∧
    (stats.timeframe = .undef →
      timeframeOrDefault stats.timeframe = .str "all" ∧
      ∃ descs, buildContractArgs K stats addr =
        Except.ok (BuildArgsResult.success
          ⟨[.scvAddress addr, .scvU64 (Rat.floor qv).toNat,
            .scvString asset, .scvU32 qc.num.toNat, .scvString "all"],
           descs⟩) ∧ descs.length = 5) := by
  constructor
  · intro h
    have htf : timeframeOrDefault stats.timeframe = .str "" := by
      rw [h]
      rfl
    refine ⟨htf, ?_⟩
    obtain ⟨_, descs, hb, hlen⟩ := buildContractArgs_success_spec K stats
      addr qv qc asset "" hv hv0 hv1 ha ha0 ha1 hc hcden hc0 hc1
      (by rw [h]; rfl) htf (by decide) haddr hK
    exact ⟨descs, hb, hlen⟩
  · intro h
    have htf : timeframeOrDefault stats.timeframe = .str "all" := by
      rw [h]
      rfl
    refine ⟨htf, ?_⟩
    obtain ⟨_, descs, hb, hlen⟩ := buildContractArgs_success_spec K stats
      addr qv qc asset "all" hv hv0 hv1 ha ha0 ha1 hc hcden hc0 hc1
      (by rw [h]; rfl) htf (by decide) haddr hK
    exact ⟨descs, hb, hlen⟩

/-- Witness for C10: an empty-string timeframe is passed through as
String "" in the fifth argument. -/
theorem c10_witness :
    timeframeOrDefault fixtures.emptyTimeframeStats.timeframe = .str "" ∧
    ∃ descs, buildContractArgs fixtures.oracleAllValid
      fixtures.emptyTimeframeStats fixtures.sampleAddress =
      Except.ok (BuildArgsResult.success
        ⟨[.scvAddress fixtures.sampleAddress,
          .scvU64 (Rat.floor (45000 : ℚ)).toNat, .scvString "XLM",
          .scvU32 (120 : ℚ).num.toNat, .scvString ""], descs⟩) ∧
      descs.length = 5 :=
  (c10_theorem fixtures.oracleAllValid fixtures.emptyTimeframeStats
    fixtures.sampleAddress 45000 120 "XLM" rfl (by norm_num) (by decide)
    rfl (by decide) (by decide) rfl (by decide) (by norm_num) (by decide)
    rfl rfl).1 rfl

/-- Claim C2: validation violations are all collected first and returned
together without any conversion result; each violated check contributes
its message; when validation passes, conversion failures accumulate and
the overall failure carries a labelled message for every failing
conversion, with no partial argument list. -/
theorem c2_theorem (K : StrKeyOracle) (stats : ContractStatsInput)
    (addr : String) :
    (validateIndexedStats stats ≠ [] →
      buildContractArgs K stats addr =
        Except.ok (BuildArgsResult.failure (validateIndexedStats stats))) ∧
    (∀ n, stats.totalVolume = .num n → n.ltQ 0 = true →
      ("totalVolume must be non-negative, got " ++
        jsDisplay stats.totalVolume) ∈ validateIndexedStats stats) ∧
    (∀ s, stats.mostActiveAsset = .str s → (jsTrim s).length = 0 →
      "mostActiveAsset must not be empty" ∈ validateIndexedStats stats) ∧
    (∀ n, stats.contractCalls = .num n → n.isIntegerB = false →
      ("contractCalls must be an integer, got " ++
        jsDisplay stats.contractCalls) ∈ validateIndexedStats stats) ∧
    (validateIndexedStats stats = [] →
      ∀ r0 r1 r2 r3 r4 : ConversionResult,
      addressToScVal K (.str addr) = Except.ok r0 →
      toScVal K stats.totalVolume (some .u64) = Except.ok r1 →
      toScVal K stats.mostActiveAsset (some .string) = Except.ok r2 →
      toScVal K stats.contractCalls (some .u32) = Except.ok r3 →
      toScVal K (timeframeOrDefault stats.timeframe) (some .string) =
        Except.ok r4 →
      (isConversionError r0 || isConversionError r1 || isConversionError r2 ||
        isConversionError r3 || isConversionError r4) = true →
      ∃ errs, buildContractArgs K stats addr =
          Except.ok (BuildArgsResult.failure errs) ∧
        (∀ e, r0 = .failure e → ("accountAddress: " ++ e) ∈ errs) ∧
        (∀ e, r1 = .failure e → ("totalVolume: " ++ e) ∈ errs) ∧
        (∀ e, r2 = .failure e → ("mostActiveAsset: " ++ e) ∈ errs) ∧
        (∀ e, r3 = .failure e → ("contractCalls: " ++ e) ∈ errs) ∧
        (∀ e, r4 = .failure e → ("timeframe: " ++ e) ∈ errs)) := by
  refine ⟨?_, ?_, ?_, ?_, ?_⟩
  · intro h
    have hl : 0 < (validateIndexedStats stats).length :=
      List.length_pos.mpr h
    simp only [buildContractArgs, hl, if_true, pure, Except.pure]
  · intro n hn hneg
    rw [validateIndexedStats, hn]
    simp only [validateTotalVolume, hneg, if_true]
    simp
  · intro s hs hempty
    rw [validateIndexedStats, hs]
    simp only [validateMostActiveAsset, hempty, if_true]
    simp
  · intro n hn hint
    rw [validateIndexedStats, hn]
    simp only [validateContractCalls, hint, Bool.not_false, if_true]
    simp
  · intro hclean r0 r1 r2 r3 r4 h0 h1 h2 h3 h4 hfail
    obtain ⟨errs, hb, hm0, hm1, hm2, hm3, hm4⟩ :=
      buildFromResults_failures stats addr r0 r1 r2 r3 r4 hfail
    refine ⟨errs, ?_, hm0, hm1, hm2, hm3, hm4⟩
    rw [buildContractArgs_eq K stats addr hclean _ _ _ _ _ h0 h1 h2 h3 h4,
      hb]


open sorobanConverter contractArgsBuilder

/-- Witness for C2: two validation violations are reported together with
no conversion attempted, and in the conversion phase an invalid address
and an over-u64 volume are both reported in one failure. -/
theorem c2_witness :
    buildContractArgs fixtures.oracleAllValid fixtures.twoViolationStats
      fixtures.sampleAddress =
      Except.ok (BuildArgsResult.failure
        ["totalVolume must be non-negative, got -1",
         "mostActiveAsset must not be empty"]) ∧
    ∃ errs,
      buildContractArgs fixtures.oracleAllValid fixtures.hugeVolumeStats
        "invalid-address" = Except.ok (BuildArgsResult.failure errs) ∧
      ("accountAddress: Invalid Stellar address: \"invalid-address\". " ++
        "Must be a 56-character G... (account) or C... (contract) address")
        ∈ errs ∧
      ("totalVolume: Value 20000000000000000000 exceeds u64 max " ++
        "(18446744073709551615)") ∈ errs := by
  constructor
  · have h := (c2_theorem fixtures.oracleAllValid fixtures.twoViolationStats
      fixtures.sampleAddress).1 (by decide)
    exact h
  · have h0 : addressToScVal fixtures.oracleAllValid
        (.str "invalid-address") = Except.ok (ConversionResult.failure
        ("Invalid Stellar address: \"invalid-address\". " ++
          "Must be a 56-character G... (account) or C... (contract) address")) := by
      unfold addressToScVal addressToScValBody
      rfl
    have h1 : toScVal fixtures.oracleAllValid
        fixtures.hugeVolumeStats.totalVolume (some .u64) =
        Except.ok (ConversionResult.failure
          ("Value 20000000000000000000 exceeds u64 max " ++
            "(18446744073709551615)")) := by
      rw [toScVal_u64_eq]
      rfl
    have h2 : toScVal fixtures.oracleAllValid
        fixtures.hugeVolumeStats.mostActiveAsset (some .string) =
        Except.ok (ConversionResult.success (.scvString "XLM")) := by
      rw [toScVal_string_eq]
      rfl
    have h3 : toScVal fixtures.oracleAllValid
        fixtures.hugeVolumeStats.contractCalls (some .u32) =
        Except.ok (ConversionResult.success (.scvU32 120)) := by
      rw [toScVal_u32_eq]
      rfl
    have h4 : toScVal fixtures.oracleAllValid
        (timeframeOrDefault fixtures.hugeVolumeStats.timeframe)
        (some .string) =
        Except.ok (ConversionResult.success (.scvString "all")) := by
      rw [toScVal_string_eq]
      rfl
    obtain ⟨errs, hb, hm0, hm1, _, _, _⟩ :=
      (c2_theorem fixtures.oracleAllValid fixtures.hugeVolumeStats
        "invalid-address").2.2.2.2 rfl _ _ _ _ _ h0 h1 h2 h3 h4 rfl
    exact ⟨errs, hb, hm0 _ rfl, hm1 _ rfl⟩


open sorobanConverter

/-- Claim C5, counterexample: for the NaN input the u32 conversion fails,
but its message reports an invalid number value and does not name the
violated u32 bound. -/
theorem c5_counterexample :
    numberToScValU32 (.num .nan) =
      Except.ok (.failure "Invalid number value: NaN") ∧
    strIncludes "Invalid number value: NaN" "u32 range [0, 4294967295]" =
      false := ⟨rfl, by decide⟩

/-- Claim C5, amended: integers within the u32 range convert successfully
and round-trip through fromScVal; negative, oversized or non-integral
finite numbers fail with a message naming the u32 range; NaN fails with
the invalid-number message (which does not name the range). -/
theorem c5_theorem (K : StrKeyOracle) (n : ℕ) (q : ℚ) :
    (n ≤ U32_MAX →
      toScVal K (.num (.fin n)) (some .u32) =
        Except.ok (.success (.scvU32 n)) ∧
      fromScVal (.scvU32 n) = .num (.fin n)) ∧
    ((q < 0 ∨ (U32_MAX : ℚ) < q ∨ q.den ≠ 1) →
      ∃ e, numberToScValU32 (.num (.fin q)) = Except.ok (.failure e) ∧
        strIncludes e "u32 range [0, 4294967295]" = true) ∧
    numberToScValU32 (.num .nan) =
      Except.ok (.failure "Invalid number value: NaN") := by
  refine ⟨?_, ?_, rfl⟩
  · intro h
    constructor
    · rw [toScVal_u32_eq]
      have hs := numberToScValU32_success (n : ℚ) (by simp)
        (by exact_mod_cast Nat.zero_le n) (by exact_mod_cast h)
      simpa using hs
    · simp [fromScVal, scValToNative]
  · intro h
    exact numberToScValU32_names_bound q h

/-- Witness for C5: 7 converts and round-trips; -1 fails naming the
bound. -/
theorem c5_witness :
    (toScVal fixtures.oracleAllValid (.num (.fin 7)) (some .u32) =
      Except.ok (.success (.scvU32 7)) ∧
     fromScVal (.scvU32 7) = .num (.fin 7)) ∧
    ∃ e, numberToScValU32 (.num (.fin (-1))) = Except.ok (.failure e) ∧
      strIncludes e "u32 range [0, 4294967295]" = true :=
  ⟨(c5_theorem fixtures.oracleAllValid 7 (-1)).1 (by decide),
   (c5_theorem fixtures.oracleAllValid 7 (-1)).2.1 (Or.inl (by decide))⟩


open sorobanConverter

/-- Claim C6, counterexample: the i64 conversion of -1.5 yields I64(-2)
(Math.floor), not I64(-1) (truncation toward zero) as the claim states. -/
theorem c6_counterexample :
    numberToScValI64 (.num (.fin fixtures.negOnePointFive)) =
      Except.ok (.success (.scvI64 (-2))) ∧
    numberToScValI64 (.bigint (-1)) =
      Except.ok (.success (.scvI64 (-1))) ∧
    numberToScValI64 (.num (.fin fixtures.negOnePointFive)) ≠
      numberToScValI64 (.bigint (-1)) := by
  have e1 : numberToScValI64 (.num (.fin fixtures.negOnePointFive)) =
      Except.ok (.success (.scvI64 (-2))) := rfl
  have e2 : numberToScValI64 (.bigint (-1)) =
      Except.ok (.success (.scvI64 (-1))) := rfl
  refine ⟨e1, e2, ?_⟩
  rw [e1, e2]
  simp

/-- Claim C6, amended: the u64, i64, u128 and i128 conversions of a finite
non-integral number apply Math.floor (rounding toward negative infinity)
before the range check, so the conversion agrees with the conversion of
the floored integer, not the integer truncated toward zero. -/
theorem c6_theorem (q : ℚ) :
    ((0 : ℤ) ≤ Rat.floor q → Rat.floor q ≤ U64_MAX →
      numberToScValU64 (.num (.fin q)) =
        Except.ok (.success (.scvU64 (Rat.floor q).toNat))) ∧
    (-(2 ^ 63) ≤ Rat.floor q → Rat.floor q ≤ 2 ^ 63 - 1 →
      numberToScValI64 (.num (.fin q)) =
        Except.ok (.success (.scvI64 (Rat.floor q))) ∧
      numberToScValI64 (.num (.fin q)) =
        numberToScValI64 (.bigint (Rat.floor q))) ∧
    ((0 : ℤ) ≤ Rat.floor q → Rat.floor q ≤ 2 ^ 128 - 1 →
      numberToScValU128 (.num (.fin q)) =
        Except.ok (.success (.scvU128 (Rat.floor q).toNat))) ∧
    (-(2 ^ 127) ≤ Rat.floor q → Rat.floor q ≤ 2 ^ 127 - 1 →
      numberToScValI128 (.num (.fin q)) =
        Except.ok (.success (.scvI128 (Rat.floor q)))) := by
  refine ⟨?_, ?_, ?_, ?_⟩
  · intro h0 h1
    exact numberToScValU64_success q h0 h1
  · intro h1 h2
    refine ⟨numberToScValI64_success q h1 h2, ?_⟩
    rw [numberToScValI64_success q h1 h2, numberToScValI64_bigint _ h1 h2]
  · intro h0 h1
    exact numberToScValU128_success q h0 h1
  · intro h1 h2
    exact numberToScValI128_success q h1 h2

/-- Witness for C6: at -1.5 the i64 conversion produces the floored value
-2 and coincides with converting the bigint -2. -/
theorem c6_witness :
    (numberToScValI64 (.num (.fin fixtures.negOnePointFive)) =
      Except.ok (.success (.scvI64 (Rat.floor fixtures.negOnePointFive))) ∧
     numberToScValI64 (.num (.fin fixtures.negOnePointFive)) =
      numberToScValI64 (.bigint (Rat.floor fixtures.negOnePointFive))) ∧
    Rat.floor fixtures.negOnePointFive = -2 :=
  ⟨(c6_theorem fixtures.negOnePointFive).2.1 (by decide) (by decide),
   by decide⟩


open sorobanConverter contractArgsBuilder

/-- Claim C7 (code bug): inferred conversion of a byte buffer produces the
Bytes variant only for a Node Buffer; a plain Uint8Array is captured by
the earlier plain-object branch and routed to the map converter (whose
numeric index keys fail symbol validation), making the dedicated
Uint8Array arm of the dispatch dead code. -/
theorem c7_theorem (K : StrKeyOracle) :
    toScVal K (.bytes false [1]) none =
      Except.ok (.failure ("Failed to convert map key \"0\": Invalid " ++
        "symbol \"0\": must be 1-32 chars, alphanumeric/underscore, " ++
        "starting with letter or underscore")) ∧
    toScVal K (.bytes true [1]) none =
      Except.ok (.success (.scvBytes [1])) ∧
    (∀ bs : List ℕ, toScVal K (.bytes false bs) none =
      objectToScValMap K (.bytes false bs) none) := by
  refine ⟨?_, ?_, ?_⟩
  · simp only [toScVal, toScValBody, objectToScValMap, objectToScValMapBody,
      bytesEntries, convMapEntries]
    rfl
  · simp only [toScVal, toScValBody]
    rfl
  · intro bs
    obtain ⟨r, hr⟩ := objectToScValMap_ok K (.bytes false bs) none
    simp only [toScVal, toScValBody, Bool.false_eq_true, if_false, hr, jsTry]

/-- Claim C8: for every input value and optional target type the
converter returns a ConversionResult value rather than raising, and the
argument builder likewise returns a BuildArgsResult for every stats
record and address (in the exception-aware semantics, the call never ends
in the error state). -/
theorem c8_theorem (K : StrKeyOracle) (value : JSValue)
    (ty : Option ScValTargetType) (stats : ContractStatsInput)
    (accountAddress : String) :
    (∃ r, toScVal K value ty = Except.ok r) ∧
    (∃ b, buildContractArgs K stats accountAddress = Except.ok b) :=
  ⟨toScVal_ok K value ty, buildContractArgs_ok K stats accountAddress⟩


open contractBridge

/-- Claim C3: when the simulation step reports an error or raises, the
observer is notified of the failed state, mintWrap rejects, and the
observer never receives signed, submitted or confirmed for that
invocation. -/
theorem c3_theorem (env : MintEnv) (e : JSError)
    (hb : env.buildResult = Except.ok ())
    (hsim : env.simResponse = SimResponse.err e ∨
      env.simResponse = SimResponse.throws e) :
    TransactionState.failed ∈ (mintWrap env).1 ∧
    (∃ m, (mintWrap env).2 = Except.error m) ∧
    TransactionState.signed ∉ (mintWrap env).1 ∧
    TransactionState.submitted ∉ (mintWrap env).1 ∧
    TransactionState.confirmed ∉ (mintWrap env).1 := by
  rcases hsim with h | h <;>
    simp [mintWrap, hb, h, simulateTransaction]

/-- Witness for C3: a lifecycle whose simulation reports an error. -/
theorem c3_witness :
    TransactionState.failed ∈ (mintWrap fixtures.simFailEnv).1 ∧
    (∃ m, (mintWrap fixtures.simFailEnv).2 = Except.error m) ∧
    TransactionState.signed ∉ (mintWrap fixtures.simFailEnv).1 ∧
    TransactionState.submitted ∉ (mintWrap fixtures.simFailEnv).1 ∧
    TransactionState.confirmed ∉ (mintWrap fixtures.simFailEnv).1 :=
  c3_theorem fixtures.simFailEnv .other rfl (Or.inl rfl)

/-- Claim C4: with the network never resolving the transaction, the two
polling budgets (60 attempts, 120000 ms from lifecycle start) are the
only exits: whichever triggers first aborts the invocation as failed, and
mintWrap rejects with the attempts-exhausted message or the classified
network/timeout message, never the unclassified one. -/
theorem c4_theorem (env : MintEnv) (sx hash : String)
    (hb : env.buildResult = Except.ok ())
    (hs : env.simResponse = SimResponse.ok)
    (hg : env.signResponse = SignResponse.ok sx)
    (hsub : env.submitResponse = SubmitResponse.ok hash)
    (hp : ∀ k, env.getTx k = GetTxResponse.pending) :
    (TransactionState.failed ∈ (mintWrap env).1 ∧
     TransactionState.confirmed ∉ (mintWrap env).1) ∧
    ((mintWrap env).2 = Except.error
        "Minting failed: Transaction not confirmed after 60 attempts" ∨
     (mintWrap env).2 = Except.error
        "Minting failed: Network error. Please check your connection and try again.") ∧
    ((∀ k, k < MAX_CONFIRMATION_ATTEMPTS →
        env.now k - env.startTime ≤ TRANSACTION_TIMEOUT) →
      (mintWrap env).2 = Except.error
        "Minting failed: Transaction not confirmed after 60 attempts") ∧
    (∀ j, j < MAX_CONFIRMATION_ATTEMPTS →
      (∀ k, k < j → env.now k - env.startTime ≤ TRANSACTION_TIMEOUT) →
      TRANSACTION_TIMEOUT < env.now j - env.startTime →
      (mintWrap env).2 = Except.error
        "Minting failed: Network error. Please check your connection and try again.") ∧
    (mintWrap env).2 ≠ Except.error
      "Minting failed: Unknown error occurred during transaction" := by
  have key : ∀ msg, waitForConfirmationFrom env.getTx env.now env.startTime 0 =
      ([], Except.error (JSError.error msg)) →
      mintWrap env = ([TransactionState.pending, TransactionState.simulating,
        TransactionState.signed, TransactionState.submitted,
        TransactionState.failed],
        Except.error ("Minting failed: " ++ parseContractError (.error msg))) := by
    intro msg hc
    simp [mintWrap, hb, hs, hg, hsub, simulateTransaction,
      signTransactionWithFreighter, submitTransaction, waitForConfirmation, hc]
  have hdisj := waitFrom_pending_disj env.getTx env.now env.startTime hp
    MAX_CONFIRMATION_ATTEMPTS 0 (Nat.sub_zero _)
  refine ⟨?_, ?_, ?_, ?_, ?_⟩
  · rcases hdisj with hc | hc <;>
      rw [key _ hc] <;> exact ⟨by decide, by decide⟩
  · rcases hdisj with hc | hc
    · right
      rw [key _ hc]
      rfl
    · left
      rw [key _ hc]
      rfl
  · intro htime
    have hc := waitFrom_attempts_exhausted env.getTx env.now env.startTime hp
      MAX_CONFIRMATION_ATTEMPTS 0 (Nat.sub_zero _)
      (fun k _ hk2 => htime k hk2)
    rw [key _ hc]
    rfl
  · intro j hj hbefore hover
    have hc := waitFrom_timeout env.getTx env.now env.startTime hp
      MAX_CONFIRMATION_ATTEMPTS 0 j (Nat.sub_zero _) (Nat.zero_le j) hj
      (fun k _ hk2 => hbefore k hk2) hover
    rw [key _ hc]
    rfl
  · rcases hdisj with hc | hc <;>
      · rw [key _ hc]
        intro heq
        injection heq with h2
        exact absurd h2 (by decide)

/-- Witness for C4: with every poll pending and the clock frozen at the
start, the attempt budget exhausts and mintWrap rejects with the
attempts-exhausted message. -/
theorem c4_witness :
    TransactionState.failed ∈ (mintWrap fixtures.pendingEnv).1 ∧
    (mintWrap fixtures.pendingEnv).2 = Except.error
      "Minting failed: Transaction not confirmed after 60 attempts" :=
  ⟨((c4_theorem fixtures.pendingEnv "signedxdr" "deadbeef" rfl rfl rfl rfl
      (fun _ => rfl)).1).1,
   (c4_theorem fixtures.pendingEnv "signedxdr" "deadbeef" rfl rfl rfl rfl
      (fun _ => rfl)).2.2.1 (fun k _ => Nat.zero_le _)⟩


namespace appContractBridge

theorem getContractAddress_valid (env : EnvVars) (network : Network)
    (a : String) (h : getContractAddress env network = Except.ok a) :
    isValidContractAddress a = true := by
  simp only [getContractAddress] at h
  by_cases hv : isValidContractAddress (getContractConfigAddress env network) = true
  · rw [if_neg (by simp [hv])] at h
    injection h with h2
    rw [← h2]
    exact hv
  · rw [if_pos (by simpa using hv)] at h
    exact absurd h (by simp)

end appContractBridge

open appContractBridge

/-- Claim C9: clearing the cache removes every per-network entry; after a
clear the next lookup re-resolves and re-validates the configured address
(returning its configuration error rather than any stale entry); and the
cache is mutated only by population on first use and by full clear. -/
theorem c9_theorem (env : EnvVars) (cache : Cache) (network : Network) :
    clearContractCache cache network = none ∧
    getContractInstance env (clearContractCache cache) network =
      getContractInstance env emptyCache network ∧
    (∀ m, getContractAddress env network = Except.error m →
      (getContractInstance env (clearContractCache cache) network).2 =
        Except.error m) ∧
    (∀ a, getContractAddress env network = Except.ok a →
      getContractInstance env (clearContractCache cache) network =
        (fun n => if n = network then some a else none, Except.ok a)) ∧
    ((getContractInstance env cache network).1 = cache ∨
      ∃ a, (getContractInstance env cache network).2 = Except.ok a ∧
        (getContractInstance env cache network).1 =
          fun n => if n = network then some a else cache n) := by
  refine ⟨rfl, rfl, ?_, ?_, ?_⟩
  · intro m hm
    simp [getContractInstance, clearContractCache, hm]
  · intro a ha
    have hvalid := getContractAddress_valid env network a ha
    simp [getContractInstance, clearContractCache, ha, hvalid]
  · unfold getContractInstance
    cases hc : cache network with
    | some cached => exact Or.inl rfl
    | none =>
      cases haddr : getContractAddress env network with
      | error m => exact Or.inl rfl
      | ok a =>
        by_cases hv : isValidContractAddress a = true
        · right
          refine ⟨a, ?_, ?_⟩ <;> simp [hv]
        · left
          simp [hv]

/-- Witness for C9: clearing a stale cache and resolving testnet again
re-validates and populates with the configured address. -/
theorem c9_witness :
    clearContractCache fixtures.staleCache Network.testnet = none ∧
    getContractInstance fixtures.envNone
      (clearContractCache fixtures.staleCache) Network.testnet =
      (fun n => if n = Network.testnet then some PLACEHOLDER_ADDRESS
        else none, Except.ok PLACEHOLDER_ADDRESS) :=
  ⟨(c9_theorem fixtures.envNone fixtures.staleCache Network.testnet).1,
   (c9_theorem fixtures.envNone fixtures.staleCache Network.testnet).2.2.2.1
     PLACEHOLDER_ADDRESS rfl⟩


end StellarWrap
